import Mathlib

/-!
Verification of the indicator library and strategy signal engine of the
Short_Long trading repository.

Shallow embedding conventions:
* A pandas `Series` of floats indexed by time is a `List ℚ` (index 0 is the
  oldest sample).  Exact rational arithmetic stands in for IEEE floats.
* Positions at which pandas would hold `NaN` (insufficient rolling history,
  0/0 divisions) are modelled by `Option`: `none` is the "unavailable" marker.
* `prices.rolling(window=n).f()` is modelled positionwise: position `i` holds
  a value iff `n ≤ i + 1`, computed from the trailing window
  `(take (i+1) xs).drop (i+1-n)`.
* The only genuinely irrational operation in the code base is the standard
  deviation inside the Bollinger bands; it is modelled with `Real.sqrt`, so
  the Bollinger-related definitions live in `ℝ` (and are `noncomputable`);
  everything else stays in computable `ℚ`.
-/

/-- Trailing slice `xs.iloc[-n:]` (whole list when `n ≥ xs.length`). -/
def lastN (n : ℕ) (xs : List α) : List α := xs.drop (xs.length - n)

/-- Mean of a list of rationals (pandas divides by the window length). -/
def meanQ (xs : List ℚ) : ℚ := xs.sum / xs.length

/-- Minimum of a list of rationals (`0` on the empty list, unreachable in use). -/
def listMin : List ℚ → ℚ
  | [] => 0
  | x :: t => t.foldl min x

/-- Maximum of a list of rationals (`0` on the empty list, unreachable in use). -/
def listMax : List ℚ → ℚ
  | [] => 0
  | x :: t => t.foldl max x

/-- The rolling windows of width `n`: position `i` holds the trailing window
ending at `i` when at least `n` samples precede it (pandas `rolling(n)`). -/
def rwindows (n : ℕ) (xs : List α) : List (Option (List α)) :=
  (List.range xs.length).map
    (fun i => if n ≤ i + 1 then some ((xs.take (i + 1)).drop (i + 1 - n)) else none)

/-- `xs.rolling(window=n).mean()` over a NaN-free series. -/
def rollMeanQ (n : ℕ) (xs : List ℚ) : List (Option ℚ) :=
  (rwindows n xs).map (fun w? => w?.map (fun w => w.sum / (n : ℚ)))

/-- `xs.rolling(window=n).max()` evaluated at the second-to-last position,
i.e. `xs.rolling(n).max().iloc[-2]` (`none` models pandas `NaN`). -/
def rollLastMax2 (n : ℕ) (xs : List ℚ) : Option ℚ :=
  if n ≤ xs.dropLast.length then some (listMax (lastN n xs.dropLast)) else none

/-- `xs.rolling(window=n).min().iloc[-2]`. -/
def rollLastMin2 (n : ℕ) (xs : List ℚ) : Option ℚ :=
  if n ≤ xs.dropLast.length then some (listMin (lastN n xs.dropLast)) else none

/-- Turn a list of options into an option of a list (`none` if any entry is
`none`); models NaN propagation through a rolling window. -/
def seqOpt : List (Option α) → Option (List α)
  | [] => some []
  | none :: _ => none
  | some x :: t => (seqOpt t).map (x :: ·)

/-- Rolling mean over a series that may contain unavailable (`NaN`) entries:
a window containing `none` yields `none` (pandas semantics). -/
def rollMeanO [DivisionRing α] (n : ℕ) (xs : List (Option α)) : List (Option α) :=
  (List.range xs.length).map
    (fun i => if n ≤ i + 1 then
        (seqOpt ((xs.take (i + 1)).drop (i + 1 - n))).map (fun w => w.sum / (n : α))
      else none)

/-- `s.iloc[-1]` of a series with unavailable markers. -/
def lastO (xs : List (Option α)) : Option α := xs.getLast?.join

/-- `series < q` under float/NaN semantics: comparison with NaN is `false`. -/
def oLT (o : Option ℚ) (q : ℚ) : Bool :=
  match o with
  | some x => decide (x < q)
  | none => false

/-- `series > q` under float/NaN semantics. -/
def oGT (o : Option ℚ) (q : ℚ) : Bool :=
  match o with
  | some x => decide (q < x)
  | none => false

/-- `current_volume < avg_volume * multiplier` where `avg_volume` may be NaN
(the comparison is then `false`, as for floats). -/
def volBelow (cv : ℚ) (avg : Option ℚ) (m : ℚ) : Bool :=
  match avg with
  | some a => decide (cv < a * m)
  | none => false

/-!  ## Indicator library (`src/indicators/technical_indicators.py`)  -/

/-- The `gain` series of `calculate_rsi`: `delta.where(delta > 0, 0)`.
`delta.iloc[0]` is NaN and `NaN > 0` is false, so position 0 holds `0`. -/
def gainsOf (prices : List ℚ) : List ℚ :=
  (List.range prices.length).map
    (fun i => if i = 0 then 0 else max (prices.getD i 0 - prices.getD (i - 1) 0) 0)

/-- The `loss` series of `calculate_rsi`: `(-delta).where(delta < 0, 0)`. -/
def lossesOf (prices : List ℚ) : List ℚ :=
  (List.range prices.length).map
    (fun i => if i = 0 then 0 else max (prices.getD (i - 1) 0 - prices.getD i 0) 0)

/-- `calculate_rsi`: rolling means of gains and losses, `rs = gain/loss`,
`rsi = 100 - 100/(1+rs)`.  Float division semantics at `loss = 0`:
`gain > 0` gives `rs = +inf` hence `rsi = 100`; `gain = 0` gives `rs = NaN`
hence an unavailable entry. -/
def calculate_rsi (prices : List ℚ) (period : ℕ) : List (Option ℚ) :=
  let g := rollMeanQ period (gainsOf prices)
  let l := rollMeanQ period (lossesOf prices)
  (g.zip l).map
    (fun p =>
      match p.1, p.2 with
      | some gv, some lv =>
          if 0 < lv then some (100 - 100 / (1 + gv / lv))
          else if 0 < gv then some 100
          else none
      | _, _ => none)

/-- Tail recursion of `ewm(span=period, adjust=False).mean()`:
`ema[t] = ema[t-1] + α (price[t] - ema[t-1])` with `α = 2/(span+1)`. -/
def emaGo (a : ℚ) : ℚ → List ℚ → List ℚ
  | _, [] => []
  | prev, p :: t =>
      let e := prev + a * (p - prev)
      e :: emaGo a e t

/-- `calculate_ema`: exponential moving average seeded by the first value. -/
def calculate_ema (prices : List ℚ) (period : ℕ) : List ℚ :=
  match prices with
  | [] => []
  | p :: t => p :: emaGo (2 / ((period : ℚ) + 1)) p t

/-- `calculate_macd`: MACD line, signal line and histogram. -/
def calculate_macd (prices : List ℚ) (fast slow signal : ℕ) :
    List ℚ × List ℚ × List ℚ :=
  let ema_fast := calculate_ema prices fast
  let ema_slow := calculate_ema prices slow
  let macd_line := (ema_fast.zip ema_slow).map (fun p => p.1 - p.2)
  let signal_line := calculate_ema macd_line signal
  let histogram := (macd_line.zip signal_line).map (fun p => p.1 - p.2)
  (macd_line, signal_line, histogram)

/-- True-range series of `calculate_atr`.  At position 0 `close.shift()` is
NaN, and the pandas row-wise `max` skips NaN, leaving `high - low`. -/
def trList (high low close : List ℚ) : List ℚ :=
  (List.range high.length).map
    (fun i =>
      if i = 0 then high.getD 0 0 - low.getD 0 0
      else
        max (high.getD i 0 - low.getD i 0)
          (max |high.getD i 0 - close.getD (i - 1) 0|
            |low.getD i 0 - close.getD (i - 1) 0|))

/-- `calculate_atr`: rolling mean of the true range. -/
def calculate_atr (high low close : List ℚ) (period : ℕ) : List (Option ℚ) :=
  rollMeanQ period (trList high low close)

/-- Simple moving average of one window (`rolling(n).mean()` on the window). -/
def smaQ (w : List ℚ) : ℚ := w.sum / (w.length : ℚ)

/-- Sample variance of one window, pandas `rolling(n).std()` squared:
divisor `len - 1` (ddof = 1).  A window of fewer than two samples yields NaN
(`0/0` for one sample), modelled as `none`. -/
def sampleVarQ (w : List ℚ) : Option ℚ :=
  if 2 ≤ w.length then
    some (((w.map (fun x => (x - smaQ w) ^ 2)).sum) / ((w.length : ℚ) - 1))
  else none

/-- Middle Bollinger band: `prices.rolling(period).mean()`. -/
def calculate_bollinger_middle (prices : List ℚ) (period : ℕ) : List (Option ℚ) :=
  rollMeanQ period prices

/-- Upper Bollinger band: `middle + std * std_dev` where `std` is the rolling
sample standard deviation (`Real.sqrt` of the rational sample variance). -/
noncomputable def calculate_bollinger_upper (prices : List ℚ) (period : ℕ)
    (std_dev : ℚ) : List (Option ℝ) :=
  (rwindows period prices).map
    (fun w? => w?.bind (fun w =>
      (sampleVarQ w).map (fun v =>
        ((smaQ w : ℚ) : ℝ) + (std_dev : ℝ) * Real.sqrt ((v : ℚ) : ℝ))))

/-- Lower Bollinger band: `middle - std * std_dev`. -/
noncomputable def calculate_bollinger_lower (prices : List ℚ) (period : ℕ)
    (std_dev : ℚ) : List (Option ℝ) :=
  (rwindows period prices).map
    (fun w? => w?.bind (fun w =>
      (sampleVarQ w).map (fun v =>
        ((smaQ w : ℚ) : ℝ) - (std_dev : ℝ) * Real.sqrt ((v : ℚ) : ℝ))))

/-- `calculate_bollinger_bands` returns `(upper, middle, lower)`. -/
noncomputable def calculate_bollinger_bands (prices : List ℚ) (period : ℕ)
    (std_dev : ℚ) : List (Option ℝ) × List (Option ℚ) × List (Option ℝ) :=
  (calculate_bollinger_upper prices period std_dev,
   calculate_bollinger_middle prices period,
   calculate_bollinger_lower prices period std_dev)

/-!  ## Divergence detection (`detect_divergence`)  -/

/-- Result type of `detect_divergence` (`'bullish'` / `'bearish'` strings). -/
inductive Divergence
  | bullish
  | bearish
deriving DecidableEq, Repr

/-- Index of the first occurrence of the minimum of a list
(`nsmallest` keeps the earliest of equal values). -/
def idxOfMin : List ℚ → ℕ
  | [] => 0
  | [_] => 0
  | x :: y :: t =>
      let j := idxOfMin (y :: t)
      if x ≤ (y :: t).getD j 0 then 0 else j + 1

/-- Auxiliary scan over candidate indices keeping the first index of the
smallest value. -/
def bestIdx (xs : List ℚ) : List ℕ → ℕ → ℕ
  | [], b => b
  | i :: t, b =>
      if xs.getD i 0 < xs.getD b 0 then bestIdx xs t i else bestIdx xs t b

/-- Index of the first occurrence of the minimum among positions other than
`skip`: the second entry of `nsmallest(2)`. -/
def idxOfMinExcept (xs : List ℚ) (skip : ℕ) : ℕ :=
  match (List.range xs.length).filter (fun i => i ≠ skip) with
  | [] => 0
  | i :: t => bestIdx xs t i

/-- Index of the first occurrence of the maximum (`nlargest` keeps the
earliest of equal values); dualized through negation. -/
def idxOfMax (xs : List ℚ) : ℕ := idxOfMin (xs.map (fun x => -x))

/-- Second entry of `nlargest(2)`. -/
def idxOfMaxExcept (xs : List ℚ) (skip : ℕ) : ℕ :=
  idxOfMinExcept (xs.map (fun x => -x)) skip

/-- `detect_divergence`: examine the trailing `lookback` samples; take the two
smallest (resp. largest) prices in value order — `nsmallest(2)` sorts
ascending, so `iloc[-1]` is the second smallest and `iloc[-2]` the smallest —
and compare the indicator values at those same positions. -/
def detect_divergence (prices indicator : List ℚ) (lookback : ℕ) :
    Option Divergence :=
  if prices.length < lookback * 2 then none
  else
    let rp := lastN lookback prices
    let ri := lastN lookback indicator
    if 2 ≤ rp.length then
      let i1 := idxOfMin rp
      let i2 := idxOfMinExcept rp i1
      if rp.getD i1 0 < rp.getD i2 0 ∧ ri.getD i2 0 < ri.getD i1 0 then
        some .bullish
      else
        let j1 := idxOfMax rp
        let j2 := idxOfMaxExcept rp j1
        if rp.getD j2 0 < rp.getD j1 0 ∧ ri.getD j1 0 < ri.getD j2 0 then
          some .bearish
        else none
    else none

/-!  ## Data model: candles and signals  -/

/-- One OHLCV candle. -/
structure Candle where
  open_ : ℚ
  high : ℚ
  low : ℚ
  close : ℚ
  volume : ℚ
deriving DecidableEq, Repr

/-- Trade direction (`'long'` / `'short'` strings in the source). -/
inductive Direction
  | long
  | short
deriving DecidableEq, Repr

/-- The signal dictionary every strategy returns (common required fields;
strategy-specific metadata entries are not modelled). -/
structure Signal where
  direction : Direction
  entry_price : ℚ
  stop_loss : ℚ
  take_profit : ℚ
  confidence : ℚ
deriving DecidableEq, Repr

def closesOf (df : List Candle) : List ℚ := df.map (·.close)
def highsOf (df : List Candle) : List ℚ := df.map (·.high)
def lowsOf (df : List Candle) : List ℚ := df.map (·.low)
def volumesOf (df : List Candle) : List ℚ := df.map (·.volume)

/-!  ## Volume Breakout strategy (`src/strategies/volume_breakout.py`)  -/

/-- Tunable state of `VolumeBreakoutStrategy` as set by `__init__`. -/
structure VolumeBreakoutStrategy where
  name : String
  volume_multiplier : ℚ

/-- `VolumeBreakoutStrategy.__init__`: stores the multiplier unchecked. -/
def vb_init (volume_multiplier : ℚ) : VolumeBreakoutStrategy :=
  ⟨"Volume Breakout", volume_multiplier⟩

/-- `VolumeBreakoutStrategy.calculate_stop_loss`. -/
def vb_calculate_stop_loss (df : List Candle) (dir : Direction) : ℚ :=
  match dir with
  | .long => listMin (lastN 10 (lowsOf df)) * (199 / 200)
  | .short => listMax (lastN 10 (highsOf df)) * (201 / 200)

/-- `VolumeBreakoutStrategy.calculate_take_profit`. -/
def vb_calculate_take_profit (entry_price stop_loss : ℚ)
    (risk_reward_ratio : ℚ) : ℚ :=
  let risk := |entry_price - stop_loss|
  let reward := risk * risk_reward_ratio
  if entry_price > stop_loss then entry_price + reward else entry_price - reward

/-- `VolumeBreakoutStrategy.generate_signal`. -/
def vb_generate_signal (S : VolumeBreakoutStrategy) (df : List Candle) :
    Option Signal :=
  if df.length < 20 then none
  else
    let avg_volume : Option ℚ :=
      if 10 ≤ df.length then some (meanQ (lastN 10 (volumesOf df))) else none
    let current_volume := (volumesOf df).getLastD 0
    if volBelow current_volume avg_volume S.volume_multiplier then none
    else
      let current_price := (closesOf df).getLastD 0
      let recent_high := rollLastMax2 20 (highsOf df)
      let recent_low := rollLastMin2 20 (lowsOf df)
      if oLT recent_high current_price = false ∧
          oGT recent_low current_price = false then none
      else
        let dir : Direction :=
          if oLT recent_high current_price then .long else .short
        let entry_price := current_price
        let stop_loss := vb_calculate_stop_loss df dir
        let take_profit := vb_calculate_take_profit entry_price stop_loss 2
        let volume_ratio := current_volume / (avg_volume.getD 0)
        let confidence := min (9 / 10) (1 / 2 + (volume_ratio - 2) * (1 / 10))
        some ⟨dir, entry_price, stop_loss, take_profit, confidence⟩

/-!  ## RSI Divergence strategy (`src/strategies/rsi_divergence.py`)  -/

/-- Tunable state of `RSIDivergenceStrategy`. -/
structure RSIDivergenceStrategy where
  name : String
  rsi_period : ℕ
  rsi_oversold : ℚ
  rsi_overbought : ℚ

/-- `RSIDivergenceStrategy.__init__`: stores the parameters unchecked. -/
def rsi_strategy_init (rsi_period : ℕ) (rsi_oversold rsi_overbought : ℚ) :
    RSIDivergenceStrategy :=
  ⟨"RSI Divergence", rsi_period, rsi_oversold, rsi_overbought⟩

/-- `RSIDivergenceStrategy.calculate_stop_loss`. -/
def rsi_calculate_stop_loss (df : List Candle) (dir : Direction) : ℚ :=
  match dir with
  | .long => listMin (lastN 10 (lowsOf df)) * (49 / 50)
  | .short => listMax (lastN 10 (highsOf df)) * (51 / 50)

/-- `RSIDivergenceStrategy.calculate_take_profit`. -/
def rsi_calculate_take_profit (entry_price stop_loss : ℚ)
    (risk_reward_ratio : ℚ) : ℚ :=
  let risk := |entry_price - stop_loss|
  let reward := risk * risk_reward_ratio
  if entry_price > stop_loss then entry_price + reward else entry_price - reward

/-- `RSIDivergenceStrategy.generate_signal`.  `detect_divergence` receives the
RSI series with its NaN head defaulted to `0`; only the trailing `lookback`
samples are read there and the length guard makes them all available, so the
defaulting is unobservable. -/
def rsi_generate_signal (S : RSIDivergenceStrategy) (df : List Candle) :
    Option Signal :=
  if df.length < S.rsi_period + 20 then none
  else
    let closes := closesOf df
    let rsi := calculate_rsi closes S.rsi_period
    let current_rsi := lastO rsi
    let divergence := detect_divergence closes (rsi.map (fun o => o.getD 0)) 10
    let entry_price := closes.getLastD 0
    if divergence = some .bullish ∧ oLT current_rsi S.rsi_overbought then
      let confidence : ℚ := if oLT current_rsi S.rsi_oversold then 7 / 10 else 1 / 2
      let stop_loss := rsi_calculate_stop_loss df .long
      let take_profit := rsi_calculate_take_profit entry_price stop_loss 3
      some ⟨.long, entry_price, stop_loss, take_profit, confidence⟩
    else if divergence = some .bearish ∧ oGT current_rsi S.rsi_oversold then
      let confidence : ℚ := if oGT current_rsi S.rsi_overbought then 7 / 10 else 1 / 2
      let stop_loss := rsi_calculate_stop_loss df .short
      let take_profit := rsi_calculate_take_profit entry_price stop_loss 3
      some ⟨.short, entry_price, stop_loss, take_profit, confidence⟩
    else none

/-!  ## EMA Crossover strategy (`src/strategies/ema_crossover.py`)  -/

/-- Tunable state of `EMACrossoverStrategy`. -/
structure EMACrossoverStrategy where
  name : String
  fast_period : ℕ
  slow_period : ℕ
  volume_multiplier : ℚ

/-- `EMACrossoverStrategy.__init__`: stores the parameters unchecked. -/
def ema_strategy_init (fast_period slow_period : ℕ) (volume_multiplier : ℚ) :
    EMACrossoverStrategy :=
  ⟨"EMA Crossover", fast_period, slow_period, volume_multiplier⟩

/-- `EMACrossoverStrategy.calculate_stop_loss`. -/
def ema_calculate_stop_loss (df : List Candle) (dir : Direction) : ℚ :=
  match dir with
  | .long => listMin (lastN 10 (lowsOf df)) * (199 / 200)
  | .short => listMax (lastN 10 (highsOf df)) * (201 / 200)

/-- `EMACrossoverStrategy.calculate_take_profit`. -/
def ema_calculate_take_profit (entry_price stop_loss : ℚ)
    (risk_reward_ratio : ℚ) : ℚ :=
  let risk := |entry_price - stop_loss|
  let reward := risk * risk_reward_ratio
  if entry_price > stop_loss then entry_price + reward else entry_price - reward

/-- `EMACrossoverStrategy.generate_signal`. -/
def ema_generate_signal (S : EMACrossoverStrategy) (df : List Candle) :
    Option Signal :=
  if df.length < S.slow_period + 5 then none
  else
    let closes := closesOf df
    let ema_fast := calculate_ema closes S.fast_period
    let ema_slow := calculate_ema closes S.slow_period
    let current_fast := ema_fast.getLastD 0
    let current_slow := ema_slow.getLastD 0
    let prev_fast := ema_fast.dropLast.getLastD 0
    let prev_slow := ema_slow.dropLast.getLastD 0
    let avg_volume : Option ℚ :=
      if 10 ≤ df.length then some (meanQ (lastN 10 (volumesOf df))) else none
    let current_volume := (volumesOf df).getLastD 0
    if volBelow current_volume avg_volume S.volume_multiplier then none
    else
      let entry_price := closes.getLastD 0
      if prev_fast ≤ prev_slow ∧ current_slow < current_fast then
        let confidence : ℚ :=
          if current_slow * (101 / 100) < current_fast then 7 / 10 else 1 / 2
        let stop_loss := ema_calculate_stop_loss df .long
        let take_profit := ema_calculate_take_profit entry_price stop_loss (5 / 2)
        some ⟨.long, entry_price, stop_loss, take_profit, confidence⟩
      else if prev_slow ≤ prev_fast ∧ current_fast < current_slow then
        let confidence : ℚ :=
          if current_fast < current_slow * (99 / 100) then 7 / 10 else 1 / 2
        let stop_loss := ema_calculate_stop_loss df .short
        let take_profit := ema_calculate_take_profit entry_price stop_loss (5 / 2)
        some ⟨.short, entry_price, stop_loss, take_profit, confidence⟩
      else none

/-!  ## Bollinger Squeeze strategy (`src/strategies/bollinger_squeeze.py`)  -/

/-- Tunable state of `BollingerSqueezeStrategy`. -/
structure BollingerSqueezeStrategy where
  name : String
  bb_period : ℕ
  bb_std : ℚ
  atr_period : ℕ

/-- `BollingerSqueezeStrategy.__init__`: stores the parameters unchecked. -/
def bs_init (bb_period : ℕ) (bb_std : ℚ) (atr_period : ℕ) :
    BollingerSqueezeStrategy :=
  ⟨"Bollinger Squeeze", bb_period, bb_std, atr_period⟩

/-- `current_upper = bb_upper.iloc[-1]`, defaulted like a float NaN would be
only on paths the length guard already excludes. -/
noncomputable def bs_current_upper (S : BollingerSqueezeStrategy)
    (df : List Candle) : ℝ :=
  (lastO (calculate_bollinger_upper (closesOf df) S.bb_period S.bb_std)).getD 0

/-- `current_lower = bb_lower.iloc[-1]`. -/
noncomputable def bs_current_lower (S : BollingerSqueezeStrategy)
    (df : List Candle) : ℝ :=
  (lastO (calculate_bollinger_lower (closesOf df) S.bb_period S.bb_std)).getD 0

/-- `bb_width = (current_upper - current_lower) / current_price`. -/
noncomputable def bs_bb_width (S : BollingerSqueezeStrategy)
    (df : List Candle) : ℝ :=
  (bs_current_upper S df - bs_current_lower S df) /
    (((closesOf df).getLastD 0 : ℚ) : ℝ)

/-- One entry of the series `(bb_upper - bb_lower) / df['close']`. -/
noncomputable def bs_width_at (S : BollingerSqueezeStrategy)
    (df : List Candle) (i : ℕ) : Option ℝ :=
  ((calculate_bollinger_upper (closesOf df) S.bb_period S.bb_std).getD i
        none).bind
    (fun u =>
      ((calculate_bollinger_lower (closesOf df) S.bb_period S.bb_std).getD i
            none).map
        (fun l => (u - l) / (((closesOf df).getD i 0 : ℚ) : ℝ)))

/-- The elementwise series `(bb_upper - bb_lower) / df['close']`. -/
noncomputable def bs_widths (S : BollingerSqueezeStrategy)
    (df : List Candle) : List (Option ℝ) :=
  (List.range (closesOf df).length).map (bs_width_at S df)

/-- `avg_bb_width = ((bb_upper - bb_lower)/close).rolling(15).mean().iloc[-1]`. -/
noncomputable def bs_avg_bb_width (S : BollingerSqueezeStrategy)
    (df : List Candle) : ℝ :=
  (lastO (rollMeanO 15 (bs_widths S df))).getD 0

/-- `current_atr = atr.iloc[-1]`. -/
def bs_current_atr (S : BollingerSqueezeStrategy) (df : List Candle) : ℚ :=
  (lastO (calculate_atr (highsOf df) (lowsOf df) (closesOf df)
      S.atr_period)).getD 0

/-- `avg_atr = atr.rolling(15).mean().iloc[-1]`. -/
def bs_avg_atr (S : BollingerSqueezeStrategy) (df : List Candle) : ℚ :=
  (lastO (rollMeanO 15 (calculate_atr (highsOf df) (lowsOf df) (closesOf df)
      S.atr_period))).getD 0

/-- The squeeze test: narrow bands and low ATR, both against their 15-period
rolling averages. -/
noncomputable def bs_is_squeeze (S : BollingerSqueezeStrategy)
    (df : List Candle) : Prop :=
  bs_bb_width S df < bs_avg_bb_width S df * (7 / 10 : ℝ) ∧
    bs_current_atr S df < bs_avg_atr S df * (4 / 5)

/-- `macd_above = macd.iloc[-1] > signal.iloc[-1]` (MACD with defaults
12/26/9). -/
def bs_macd_above (df : List Candle) : Bool :=
  let m := calculate_macd (closesOf df) 12 26 9
  decide (m.2.1.getLastD 0 < m.1.getLastD 0)

/-- `macd_cross = macd.iloc[-1] > 0 if macd_above else macd.iloc[-1] < 0`. -/
def bs_macd_cross (df : List Candle) : Bool :=
  let m := calculate_macd (closesOf df) 12 26 9
  if bs_macd_above df then decide (0 < m.1.getLastD 0)
  else decide (m.1.getLastD 0 < 0)

/-- `BollingerSqueezeStrategy.calculate_stop_loss`: entry ∓ 1.3 × ATR. -/
def bs_calculate_stop_loss (S : BollingerSqueezeStrategy) (df : List Candle)
    (entry_price : ℚ) (dir : Direction) : ℚ :=
  match dir with
  | .long => entry_price - bs_current_atr S df * (13 / 10)
  | .short => entry_price + bs_current_atr S df * (13 / 10)

/-- `BollingerSqueezeStrategy.calculate_take_profit`. -/
def bs_calculate_take_profit (entry_price stop_loss : ℚ)
    (risk_reward_ratio : ℚ) : ℚ :=
  let risk := |entry_price - stop_loss|
  let reward := risk * risk_reward_ratio
  if entry_price > stop_loss then entry_price + reward else entry_price - reward

open Classical in
/-- `BollingerSqueezeStrategy.generate_signal`. -/
noncomputable def bs_generate_signal (S : BollingerSqueezeStrategy)
    (df : List Candle) : Option Signal :=
  if df.length < max S.bb_period S.atr_period + 20 then none
  else if bs_is_squeeze S df then
    let current_price := (closesOf df).getLastD 0
    let entry_price := current_price
    if ((current_price : ℚ) : ℝ) > bs_current_upper S df ∧
        bs_macd_cross df = true ∧ bs_macd_above df = true then
      let confidence : ℚ :=
        if meanQ (lastN 10 (volumesOf df)) < (volumesOf df).getLastD 0
        then 4 / 5 else 3 / 5
      let stop_loss := bs_calculate_stop_loss S df entry_price .long
      let take_profit := bs_calculate_take_profit entry_price stop_loss 2
      some ⟨.long, entry_price, stop_loss, take_profit, confidence⟩
    else if ((current_price : ℚ) : ℝ) < bs_current_lower S df ∧
        bs_macd_cross df = true ∧ bs_macd_above df = false then
      let confidence : ℚ :=
        if meanQ (lastN 10 (volumesOf df)) < (volumesOf df).getLastD 0
        then 4 / 5 else 3 / 5
      let stop_loss := bs_calculate_stop_loss S df entry_price .short
      let take_profit := bs_calculate_take_profit entry_price stop_loss 2
      some ⟨.short, entry_price, stop_loss, take_profit, confidence⟩
    else none
  else none

/-!  ## Spec-side definitions and easy claims  -/

/-- Spec-side: the Volume Breakout `volume_ratio = current_volume / avg_volume`
with the 10-period rolling mean volume. -/
def vb_volume_ratio (df : List Candle) : ℚ :=
  (volumesOf df).getLastD 0 / meanQ (lastN 10 (volumesOf df))

/-- Spec-side: the Volume Breakout confidence formula
`min(0.9, 0.5 + (volume_ratio - 2) * 0.1)`. -/
def vb_confidence_formula (r : ℚ) : ℚ :=
  min (9 / 10) (1 / 2 + (r - 2) * (1 / 10))

/-- C6: all four `calculate_take_profit` implementations compute
`entry + |entry - stop| * ratio` when `entry > stop` and
`entry - |entry - stop| * ratio` otherwise, and they agree pairwise. -/
theorem C6_take_profit_uniform (entry_price stop_loss risk_reward_ratio : ℚ) :
    vb_calculate_take_profit entry_price stop_loss risk_reward_ratio =
      (if stop_loss < entry_price then
        entry_price + |entry_price - stop_loss| * risk_reward_ratio
      else entry_price - |entry_price - stop_loss| * risk_reward_ratio) ∧
    rsi_calculate_take_profit entry_price stop_loss risk_reward_ratio =
      vb_calculate_take_profit entry_price stop_loss risk_reward_ratio ∧
    bs_calculate_take_profit entry_price stop_loss risk_reward_ratio =
      vb_calculate_take_profit entry_price stop_loss risk_reward_ratio ∧
    ema_calculate_take_profit entry_price stop_loss risk_reward_ratio =
      vb_calculate_take_profit entry_price stop_loss risk_reward_ratio :=
  ⟨rfl, rfl, rfl, rfl⟩

/-- C7: every strategy returns `None` (and raises no error: the functions are
total) on windows shorter than its required minimum history. -/
theorem C7_insufficient_history (V : VolumeBreakoutStrategy)
    (R : RSIDivergenceStrategy) (B : BollingerSqueezeStrategy)
    (E : EMACrossoverStrategy) (df : List Candle) :
    (df.length < 20 → vb_generate_signal V df = none) ∧
    (df.length < R.rsi_period + 20 → rsi_generate_signal R df = none) ∧
    (df.length < max B.bb_period B.atr_period + 20 →
      bs_generate_signal B df = none) ∧
    (df.length < E.slow_period + 5 → ema_generate_signal E df = none) := by
  refine ⟨fun h => ?_, fun h => ?_, fun h => ?_, fun h => ?_⟩
  · unfold vb_generate_signal; rw [if_pos h]
  · unfold rsi_generate_signal; rw [if_pos h]
  · unfold bs_generate_signal; rw [if_pos h]
  · unfold ema_generate_signal; rw [if_pos h]

/-- Witness for C7 at concrete too-short windows (19, 33, 39 and 24 candles
for the four strategies at their default parameters). -/
theorem C7_insufficient_history_witness :
    vb_generate_signal (vb_init 2)
        (List.replicate 19 ⟨100, 100, 100, 100, 100⟩) = none ∧
    rsi_generate_signal (rsi_strategy_init 14 30 70)
        (List.replicate 33 ⟨100, 100, 100, 100, 100⟩) = none ∧
    bs_generate_signal (bs_init 20 2 14)
        (List.replicate 39 ⟨100, 100, 100, 100, 100⟩) = none ∧
    ema_generate_signal (ema_strategy_init 5 20 (3 / 2))
        (List.replicate 24 ⟨100, 100, 100, 100, 100⟩) = none :=
  ⟨(C7_insufficient_history (vb_init 2) (rsi_strategy_init 14 30 70)
      (bs_init 20 2 14) (ema_strategy_init 5 20 (3 / 2)) _).1 (by decide),
   (C7_insufficient_history (vb_init 2) (rsi_strategy_init 14 30 70)
      (bs_init 20 2 14) (ema_strategy_init 5 20 (3 / 2)) _).2.1 (by decide),
   (C7_insufficient_history (vb_init 2) (rsi_strategy_init 14 30 70)
      (bs_init 20 2 14) (ema_strategy_init 5 20 (3 / 2)) _).2.2.1 (by decide),
   (C7_insufficient_history (vb_init 2) (rsi_strategy_init 14 30 70)
      (bs_init 20 2 14) (ema_strategy_init 5 20 (3 / 2)) _).2.2.2 (by decide)⟩

/-- C3 (code bug): no constructor validates its parameters — each `__init__`
accepts a non-positive period/multiplier and stores it unchanged, instead of
failing fast as the spec requires. -/
theorem C3_constructors_accept_nonpositive :
    vb_init (-1) = ⟨"Volume Breakout", -1⟩ ∧
    rsi_strategy_init 0 30 70 = ⟨"RSI Divergence", 0, 30, 70⟩ ∧
    bs_init 0 (-2) 0 = ⟨"Bollinger Squeeze", 0, -2, 0⟩ ∧
    ema_strategy_init 0 0 (-1) = ⟨"EMA Crossover", 0, 0, -1⟩ :=
  ⟨rfl, rfl, rfl, rfl⟩

set_option maxRecDepth 4000 in
/-- C1 (code bug): on a flat 30-candle series with close = 100 the rolling
mean gain and mean loss are both zero, `rs = 0/0` is NaN, and `calculate_rsi`
is unavailable at every position — instead of the spec's guarded RSI = 100. -/
theorem C1_flat_series_rsi_unavailable :
    calculate_rsi (List.replicate 30 (100 : ℚ)) 14 = List.replicate 30 none := by
  norm_num [calculate_rsi, rollMeanQ, rwindows, gainsOf, lossesOf,
    List.range_succ, List.replicate]

/-- C10: `detect_divergence` returns `None` whenever the series is shorter
than `2 * lookback`, regardless of its content. -/
theorem C10_divergence_min_length (prices indicator : List ℚ) (lookback : ℕ)
    (h : prices.length < lookback * 2) :
    detect_divergence prices indicator lookback = none := by
  unfold detect_divergence; rw [if_pos h]

/-- Witness for C10: a 15-sample series whose trailing 10 samples show a
higher-low/lower-indicator (bullish) pattern still yields `None`. -/
theorem C10_divergence_min_length_witness :
    detect_divergence
      ((List.replicate 5 (100 : ℚ)) ++ [9, 10, 50, 50, 50, 50, 50, 50, 50, 12])
      ((List.replicate 5 (50 : ℚ)) ++ [5, 3, 50, 50, 50, 50, 50, 50, 50, 40])
      10 = none :=
  C10_divergence_min_length _ _ 10 (by decide)

/-- C8: whenever Volume Breakout returns a signal its confidence is exactly
`min(0.9, 0.5 + (volume_ratio - 2) * 0.1)`; that formula is monotone in the
volume ratio and never exceeds 0.9. -/
theorem C8_vb_confidence :
    (∀ (S : VolumeBreakoutStrategy) (df : List Candle) (sig : Signal),
        vb_generate_signal S df = some sig →
        sig.confidence = vb_confidence_formula (vb_volume_ratio df)) ∧
    (∀ r₁ r₂ : ℚ, r₁ ≤ r₂ →
        vb_confidence_formula r₁ ≤ vb_confidence_formula r₂) ∧
    (∀ r : ℚ, vb_confidence_formula r ≤ 9 / 10) := by
  refine ⟨fun S df sig h => ?_, fun r₁ r₂ h => ?_, fun r => min_le_left _ _⟩
  · unfold vb_generate_signal at h
    dsimp only at h
    split_ifs at h with h1 h2 h3 h4 h5
    all_goals try omega
    all_goals
      injection h with h'
      subst h'
      simp only [vb_confidence_formula, vb_volume_ratio, Option.getD_some]
  · unfold vb_confidence_formula
    exact min_le_min le_rfl (by nlinarith)
/-!  ## C2: stop/take sides, helper lemmas  -/

theorem foldl_min_le_init (t : List ℚ) (x : ℚ) : t.foldl min x ≤ x := by
  induction t generalizing x with
  | nil => simp
  | cons y t ih => exact le_trans (ih (min x y)) (min_le_left _ _)

theorem foldl_min_le_mem {t : List ℚ} {a : ℚ} (x : ℚ) (h : a ∈ t) :
    t.foldl min x ≤ a := by
  induction t generalizing x with
  | nil => cases h
  | cons y t ih =>
    rcases List.mem_cons.1 h with rfl | hm
    · exact le_trans (foldl_min_le_init t (min x a)) (min_le_right _ _)
    · exact ih _ hm

theorem listMin_le_of_mem {xs : List ℚ} {a : ℚ} (h : a ∈ xs) :
    listMin xs ≤ a := by
  cases xs with
  | nil => cases h
  | cons x t =>
    rcases List.mem_cons.1 h with rfl | hm
    · exact foldl_min_le_init t a
    · exact foldl_min_le_mem x hm

theorem foldl_min_pos {t : List ℚ} {x : ℚ} (hx : 0 < x)
    (ht : ∀ a ∈ t, 0 < a) : 0 < t.foldl min x := by
  induction t generalizing x with
  | nil => simpa
  | cons y t ih =>
    exact ih (lt_min hx (ht y (List.mem_cons_self y t)))
      (fun a ha => ht a (List.mem_cons_of_mem _ ha))

theorem listMin_pos {xs : List ℚ} (hne : xs ≠ []) (hpos : ∀ a ∈ xs, 0 < a) :
    0 < listMin xs := by
  cases xs with
  | nil => exact absurd rfl hne
  | cons x t =>
    exact foldl_min_pos (hpos x (List.mem_cons_self x t))
      (fun a ha => hpos a (List.mem_cons_of_mem _ ha))

theorem init_le_foldl_max (t : List ℚ) (x : ℚ) : x ≤ t.foldl max x := by
  induction t generalizing x with
  | nil => simp
  | cons y t ih => exact le_trans (le_max_left _ _) (ih (max x y))

theorem mem_le_foldl_max {t : List ℚ} {a : ℚ} (x : ℚ) (h : a ∈ t) :
    a ≤ t.foldl max x := by
  induction t generalizing x with
  | nil => cases h
  | cons y t ih =>
    rcases List.mem_cons.1 h with rfl | hm
    · exact le_trans (le_max_right _ _) (init_le_foldl_max t (max x a))
    · exact ih _ hm

theorem le_listMax_of_mem {xs : List ℚ} {a : ℚ} (h : a ∈ xs) :
    a ≤ listMax xs := by
  cases xs with
  | nil => cases h
  | cons x t =>
    rcases List.mem_cons.1 h with rfl | hm
    · exact init_le_foldl_max t a
    · exact mem_le_foldl_max x hm

theorem mem_lastN_concat {α : Type} (n : ℕ) (hn : 1 ≤ n) (ys : List α) (a : α) :
    a ∈ lastN n (ys ++ [a]) := by
  unfold lastN
  have hlen : (ys ++ [a]).length = ys.length + 1 := by simp
  rw [hlen]
  have hle : ys.length + 1 - n ≤ ys.length := by omega
  rw [List.drop_append_of_le_length hle]
  exact List.mem_append_right _ (List.mem_singleton.2 rfl)

theorem lastN_subset {α : Type} (n : ℕ) (xs : List α) : lastN n xs ⊆ xs :=
  List.drop_subset _ _

/-- The Signal invariant of the spec: stop and take on the correct side of the
entry for the given direction. -/
def sidesOK (sig : Signal) : Prop :=
  (sig.direction = .long →
    sig.stop_loss < sig.entry_price ∧ sig.entry_price < sig.take_profit) ∧
  (sig.direction = .short →
    sig.take_profit < sig.entry_price ∧ sig.entry_price < sig.stop_loss)

/-- The candle validity/positivity assumptions of the spec's data model. -/
def validWindow (df : List Candle) : Prop :=
  ∀ c ∈ df, 0 < c.low ∧ c.low ≤ c.close ∧ c.close ≤ c.high

theorem stop_long_lt_entry {df : List Candle} (hne : df ≠ [])
    (hv : validWindow df) (q : ℚ) (hq1 : q < 1) :
    listMin (lastN 10 (lowsOf df)) * q < (closesOf df).getLastD 0 := by
  rcases List.eq_nil_or_concat df with rfl | ⟨ys, c, hdf⟩
  · exact absurd rfl hne
  rw [List.concat_eq_append] at hdf
  subst hdf
  have hmem : c.low ∈ lastN 10 (lowsOf (ys ++ [c])) := by
    have : lowsOf (ys ++ [c]) = ys.map (·.low) ++ [c.low] := by simp [lowsOf]
    rw [this]
    exact mem_lastN_concat 10 (by norm_num) _ _
  have hle : listMin (lastN 10 (lowsOf (ys ++ [c]))) ≤ c.low :=
    listMin_le_of_mem hmem
  have hpos : 0 < listMin (lastN 10 (lowsOf (ys ++ [c]))) := by
    refine listMin_pos (List.ne_nil_of_mem hmem) ?_
    intro a ha
    have ha' : a ∈ lowsOf (ys ++ [c]) := lastN_subset _ _ ha
    simp only [lowsOf, List.mem_map] at ha'
    obtain ⟨d, hd, rfl⟩ := ha'
    exact (hv d hd).1
  have hcl : (closesOf (ys ++ [c])).getLastD 0 = c.close := by
    simp [closesOf]
  rw [hcl]
  have hcc : c.low ≤ c.close := (hv c (by simp)).2.1
  nlinarith

theorem entry_lt_stop_short {df : List Candle} (hne : df ≠ [])
    (hv : validWindow df) (q : ℚ) (hq1 : 1 < q) :
    (closesOf df).getLastD 0 < listMax (lastN 10 (highsOf df)) * q := by
  rcases List.eq_nil_or_concat df with rfl | ⟨ys, c, hdf⟩
  · exact absurd rfl hne
  rw [List.concat_eq_append] at hdf
  subst hdf
  have hmem : c.high ∈ lastN 10 (highsOf (ys ++ [c])) := by
    have : highsOf (ys ++ [c]) = ys.map (·.high) ++ [c.high] := by simp [highsOf]
    rw [this]
    exact mem_lastN_concat 10 (by norm_num) _ _
  have hle : c.high ≤ listMax (lastN 10 (highsOf (ys ++ [c]))) :=
    le_listMax_of_mem hmem
  have hch : 0 < c.high := by
    have h1 := (hv c (by simp)).1
    have h2 := (hv c (by simp)).2.1
    have h3 := (hv c (by simp)).2.2
    linarith
  have hcl : (closesOf (ys ++ [c])).getLastD 0 = c.close := by
    simp [closesOf]
  rw [hcl]
  have hcc : c.close ≤ c.high := (hv c (by simp)).2.2
  nlinarith

theorem tp_gt_entry {e s r : ℚ} (h : s < e) (hr : 0 < r) :
    e < vb_calculate_take_profit e s r := by
  unfold vb_calculate_take_profit
  rw [if_pos (show e > s from h), abs_of_pos (by linarith)]
  nlinarith

theorem tp_lt_entry {e s r : ℚ} (h : e < s) (hr : 0 < r) :
    vb_calculate_take_profit e s r < e := by
  unfold vb_calculate_take_profit
  rw [if_neg (by simp only [gt_iff_lt, not_lt]; linarith),
    abs_of_neg (by linarith)]
  nlinarith

theorem rsi_tp_eq_vb : rsi_calculate_take_profit = vb_calculate_take_profit := rfl
theorem bs_tp_eq_vb : bs_calculate_take_profit = vb_calculate_take_profit := rfl
theorem ema_tp_eq_vb : ema_calculate_take_profit = vb_calculate_take_profit := rfl

theorem sidesOK_long {e s t c : ℚ} (h1 : s < e) (h2 : e < t) :
    sidesOK ⟨.long, e, s, t, c⟩ := by
  unfold sidesOK
  refine ⟨fun _ => ⟨h1, h2⟩, fun hdir => ?_⟩
  cases hdir

theorem sidesOK_short {e s t c : ℚ} (h1 : t < e) (h2 : e < s) :
    sidesOK ⟨.short, e, s, t, c⟩ := by
  unfold sidesOK
  refine ⟨fun hdir => ?_, fun _ => ⟨h1, h2⟩⟩
  cases hdir

/-- C2 (amended): for Volume Breakout, RSI Divergence and EMA Crossover every
returned signal has its stop and take on the correct side of the entry
(valid candles, positive prices); for Bollinger Squeeze the same holds
whenever the current ATR is positive (at zero ATR both stop and take collapse
onto the entry). -/
theorem C2_sides_amended (df : List Candle) (hv : validWindow df) :
    (∀ (V : VolumeBreakoutStrategy) (sig : Signal),
        vb_generate_signal V df = some sig → sidesOK sig) ∧
    (∀ (R : RSIDivergenceStrategy) (sig : Signal),
        rsi_generate_signal R df = some sig → sidesOK sig) ∧
    (∀ (E : EMACrossoverStrategy) (sig : Signal),
        ema_generate_signal E df = some sig → sidesOK sig) ∧
    (∀ (B : BollingerSqueezeStrategy) (sig : Signal),
        0 < bs_current_atr B df → bs_generate_signal B df = some sig →
        sidesOK sig) := by
  refine ⟨fun V sig h => ?_, fun R sig h => ?_, fun E sig h => ?_,
    fun B sig hatr h => ?_⟩
  · unfold vb_generate_signal at h
    dsimp only at h
    split_ifs at h with h1 h2 h3 h4 h5
    all_goals try omega
    all_goals
      have hne : df ≠ [] := by
        intro hemp; rw [hemp] at h1
        exact h1 (by simp only [List.length_nil]; omega)
    all_goals injection h with h'
    all_goals subst h'
    · exact sidesOK_long (stop_long_lt_entry hne hv (199 / 200) (by norm_num))
        (tp_gt_entry (stop_long_lt_entry hne hv (199 / 200) (by norm_num)) (by norm_num))
    · exact sidesOK_short
        (tp_lt_entry (entry_lt_stop_short hne hv (201 / 200) (by norm_num)) (by norm_num))
        (entry_lt_stop_short hne hv (201 / 200) (by norm_num))
  · unfold rsi_generate_signal at h
    dsimp only at h
    split_ifs at h with h1 h2 h3 h4 h5
    all_goals
      have hne : df ≠ [] := by
        intro hemp; rw [hemp] at h1
        exact h1 (by simp only [List.length_nil]; omega)
    all_goals injection h with h'
    all_goals subst h'
    all_goals simp only [rsi_tp_eq_vb]
    all_goals
      first
      | exact sidesOK_long (stop_long_lt_entry hne hv (49 / 50) (by norm_num))
          (tp_gt_entry (stop_long_lt_entry hne hv (49 / 50) (by norm_num)) (by norm_num))
      | exact sidesOK_short
          (tp_lt_entry (entry_lt_stop_short hne hv (51 / 50) (by norm_num)) (by norm_num))
          (entry_lt_stop_short hne hv (51 / 50) (by norm_num))
  · unfold ema_generate_signal at h
    dsimp only at h
    split_ifs at h with h1 h2 h3 h4 h5 h6
    all_goals
      have hne : df ≠ [] := by
        intro hemp; rw [hemp] at h1
        exact h1 (by simp only [List.length_nil]; omega)
    all_goals injection h with h'
    all_goals subst h'
    all_goals simp only [ema_tp_eq_vb]
    all_goals
      first
      | exact sidesOK_long (stop_long_lt_entry hne hv (199 / 200) (by norm_num))
          (tp_gt_entry (stop_long_lt_entry hne hv (199 / 200) (by norm_num)) (by norm_num))
      | exact sidesOK_short
          (tp_lt_entry (entry_lt_stop_short hne hv (201 / 200) (by norm_num)) (by norm_num))
          (entry_lt_stop_short hne hv (201 / 200) (by norm_num))
  · unfold bs_generate_signal at h
    dsimp only at h
    split_ifs at h with h1 h2 h3 h4 h5 h6
    all_goals injection h with h'
    all_goals subst h'
    all_goals unfold bs_calculate_stop_loss
    all_goals simp only [bs_tp_eq_vb]
    all_goals
      first
      | exact sidesOK_long (by linarith)
          (tp_gt_entry (by linarith) (by norm_num))
      | exact sidesOK_short
          (tp_lt_entry (by linarith) (by norm_num))
          (by linarith)

/-- The 21-candle Volume Breakout witness window: flat at 100 with a
high-volume breakout close at 130 on the final candle. -/
def Wvb : List Candle :=
  (List.replicate 20 ⟨100, 110, 100, 100, 100⟩) ++ [⟨100, 130, 100, 130, 1000⟩]

set_option maxRecDepth 8000 in
/-- Evaluation of the Volume Breakout strategy on the witness window. -/
theorem vb_gen_Wvb :
    vb_generate_signal (vb_init 2) Wvb =
      some ⟨.long, 130, 199 / 2, 191, 157 / 190⟩ := by
  norm_num [vb_generate_signal, vb_init, Wvb, volumesOf, closesOf, highsOf,
    lowsOf, meanQ, lastN, volBelow, oLT, oGT, rollLastMax2, rollLastMin2,
    listMax, listMin, vb_calculate_stop_loss, vb_calculate_take_profit,
    List.replicate, List.range_succ, abs_of_pos]

/-- Witness for C8: the concrete volume-breakout window produces a signal and
its confidence matches the formula. -/
theorem C8_vb_confidence_witness :
    vb_generate_signal (vb_init 2) Wvb =
      some ⟨.long, 130, 199 / 2, 191, 157 / 190⟩ ∧
    (157 / 190 : ℚ) = vb_confidence_formula (vb_volume_ratio Wvb) :=
  ⟨vb_gen_Wvb, C8_vb_confidence.1 (vb_init 2) Wvb _ vb_gen_Wvb⟩

/-- Witness for the amended C2 at the concrete volume-breakout window: the
produced long signal has `stop < entry < take`. -/
theorem C2_sides_amended_witness :
    vb_generate_signal (vb_init 2) Wvb =
      some ⟨.long, 130, 199 / 2, 191, 157 / 190⟩ ∧
    sidesOK ⟨.long, 130, 199 / 2, 191, 157 / 190⟩ := by
  have hv : validWindow Wvb := by
    intro c hc
    simp only [Wvb, List.mem_append, List.mem_replicate, List.mem_singleton] at hc
    rcases hc with ⟨-, rfl⟩ | rfl <;> norm_num
  exact ⟨vb_gen_Wvb,
    (C2_sides_amended Wvb hv).1 (vb_init 2) _ vb_gen_Wvb⟩
/-!  ## C4: characterization of the divergence point selection  -/

/-- Declarative "first occurrence of the minimum" at index `i`. -/
def FirstMinAt (xs : List ℚ) (i : ℕ) : Prop :=
  i < xs.length ∧ (∀ k < xs.length, xs.getD i 0 ≤ xs.getD k 0) ∧
    ∀ k < i, xs.getD i 0 < xs.getD k 0

/-- Declarative "first occurrence of the minimum among indices other than
`i`" at index `j`: the second entry of `nsmallest(2, keep='first')`. -/
def SecondMinAt (xs : List ℚ) (i j : ℕ) : Prop :=
  j < xs.length ∧ j ≠ i ∧
    (∀ k < xs.length, k ≠ i → xs.getD j 0 ≤ xs.getD k 0) ∧
    ∀ k < j, k ≠ i → xs.getD j 0 < xs.getD k 0

/-- Declarative "first occurrence of the maximum" at index `i`. -/
def FirstMaxAt (xs : List ℚ) (i : ℕ) : Prop :=
  i < xs.length ∧ (∀ k < xs.length, xs.getD k 0 ≤ xs.getD i 0) ∧
    ∀ k < i, xs.getD k 0 < xs.getD i 0

/-- Declarative second entry of `nlargest(2, keep='first')`. -/
def SecondMaxAt (xs : List ℚ) (i j : ℕ) : Prop :=
  j < xs.length ∧ j ≠ i ∧
    (∀ k < xs.length, k ≠ i → xs.getD k 0 ≤ xs.getD j 0) ∧
    ∀ k < j, k ≠ i → xs.getD k 0 < xs.getD j 0

theorem idxOfMin_lt_length : ∀ (xs : List ℚ), xs ≠ [] → idxOfMin xs < xs.length := by
  intro xs
  induction xs using idxOfMin.induct with
  | case1 => intro h; exact absurd rfl h
  | case2 x => intro _; simp [idxOfMin]
  | case3 x y t j hc ih =>
    intro _
    simp only [idxOfMin, if_pos hc]
    simp
  | case4 x y t j hc ih =>
    intro _
    simp only [idxOfMin, if_neg hc]
    have := ih (by simp)
    simpa [Nat.succ_lt_succ_iff] using this

theorem idxOfMin_le : ∀ (xs : List ℚ), ∀ k < xs.length,
    xs.getD (idxOfMin xs) 0 ≤ xs.getD k 0 := by
  intro xs
  induction xs using idxOfMin.induct with
  | case1 => intro k hk; simp at hk
  | case2 x =>
    intro k hk
    simp only [List.length_singleton, Nat.lt_one_iff] at hk
    subst hk
    simp [idxOfMin]
  | case3 x y t j hc ih =>
    intro k hk
    simp only [idxOfMin, if_pos hc]
    rcases k with _ | k'
    · simp
    · have := ih k' (by simpa [Nat.succ_lt_succ_iff] using hk)
      simp only [List.getD_cons_zero, List.getD_cons_succ]
      exact le_trans hc this
  | case4 x y t j hc ih =>
    intro k hk
    simp only [idxOfMin, if_neg hc]
    rcases k with _ | k'
    · simp only [List.getD_cons_succ, List.getD_cons_zero]
      exact le_of_not_le hc
    · have := ih k' (by simpa [Nat.succ_lt_succ_iff] using hk)
      simpa using this

theorem idxOfMin_first : ∀ (xs : List ℚ), ∀ k < idxOfMin xs,
    xs.getD (idxOfMin xs) 0 < xs.getD k 0 := by
  intro xs
  induction xs using idxOfMin.induct with
  | case1 => intro k hk; simp [idxOfMin] at hk
  | case2 x => intro k hk; simp [idxOfMin] at hk
  | case3 x y t j hc ih =>
    intro k hk
    simp only [idxOfMin, if_pos hc] at hk
    omega
  | case4 x y t j hc ih =>
    intro k hk
    simp only [idxOfMin, if_neg hc] at hk ⊢
    rcases k with _ | k'
    · simp only [List.getD_cons_succ, List.getD_cons_zero]
      exact lt_of_not_le hc
    · have := ih k' (by omega)
      simpa using this

theorem bestIdx_mem (xs : List ℚ) : ∀ (cand : List ℕ) (b : ℕ),
    bestIdx xs cand b ∈ b :: cand := by
  intro cand
  induction cand with
  | nil => intro b; simp [bestIdx]
  | cons i t ih =>
    intro b
    simp only [bestIdx]
    split
    · rcases List.mem_cons.1 (ih i) with h | h
      · simp [h]
      · simp [List.mem_cons_of_mem, h]
    · rcases List.mem_cons.1 (ih b) with h | h
      · simp [h]
      · simp [List.mem_cons_of_mem, h]

theorem bestIdx_le (xs : List ℚ) : ∀ (cand : List ℕ) (b : ℕ),
    ∀ j ∈ b :: cand, xs.getD (bestIdx xs cand b) 0 ≤ xs.getD j 0 := by
  intro cand
  induction cand with
  | nil =>
    intro b j hj
    simp at hj
    subst hj
    simp [bestIdx]
  | cons i t ih =>
    intro b j hj
    simp only [bestIdx]
    rcases List.mem_cons.1 hj with h | hj'
    · subst h
      split
      next hlt =>
        exact le_trans (ih i i (List.mem_cons_self _ _)) (le_of_lt hlt)
      next hnlt => exact ih j j (List.mem_cons_self _ _)
    · rcases List.mem_cons.1 hj' with h | hj''
      · subst h
        split
        next hlt => exact ih j j (List.mem_cons_self _ _)
        next hnlt =>
          exact le_trans (ih b b (List.mem_cons_self _ _)) (le_of_not_lt hnlt)
      · split
        next hlt => exact ih i j (List.mem_cons_of_mem _ hj'')
        next hnlt => exact ih b j (List.mem_cons_of_mem _ hj'')

theorem bestIdx_eq_or_lt (xs : List ℚ) : ∀ (cand : List ℕ) (b : ℕ),
    bestIdx xs cand b = b ∨
      xs.getD (bestIdx xs cand b) 0 < xs.getD b 0 := by
  intro cand
  induction cand with
  | nil => intro b; left; rfl
  | cons i t ih =>
    intro b
    simp only [bestIdx]
    split
    · right
      rcases ih i with h | h
      · rw [h]; assumption
      · exact lt_trans h (by assumption)
    · exact ih b

theorem bestIdx_first (xs : List ℚ) : ∀ (cand : List ℕ) (b : ℕ),
    (b :: cand).Sorted (· < ·) →
    ∀ j ∈ b :: cand, j < bestIdx xs cand b →
      xs.getD (bestIdx xs cand b) 0 < xs.getD j 0 := by
  intro cand
  induction cand with
  | nil =>
    intro b _ j hj hlt
    simp at hj
    subst hj
    simp [bestIdx] at hlt
  | cons i t ih =>
    intro b hs j hj hlt
    have hbi : b < i := (List.sorted_cons.1 hs).1 i (List.mem_cons_self _ _)
    have hs_it : (i :: t).Sorted (· < ·) := (List.sorted_cons.1 hs).2
    have hs_bt : (b :: t).Sorted (· < ·) := by
      rcases List.sorted_cons.1 hs with ⟨hb, hit⟩
      exact List.sorted_cons.2
        ⟨fun a ha => hb a (List.mem_cons_of_mem _ ha),
          (List.sorted_cons.1 hit).2⟩
    simp only [bestIdx] at hlt ⊢
    by_cases hcmp : xs.getD i 0 < xs.getD b 0
    · rw [if_pos hcmp] at hlt ⊢
      rcases List.mem_cons.1 hj with h | hj'
      · subst h
        rcases bestIdx_eq_or_lt xs t i with he | hv
        · rw [he]; exact hcmp
        · exact lt_trans hv hcmp
      · rcases List.mem_cons.1 hj' with h | hj''
        · subst h
          rcases bestIdx_eq_or_lt xs t j with he | hv
          · rw [he] at hlt; omega
          · exact hv
        · exact ih i hs_it j (List.mem_cons_of_mem _ hj'') hlt
    · rw [if_neg hcmp] at hlt ⊢
      rcases List.mem_cons.1 hj with h | hj'
      · subst h
        rcases bestIdx_eq_or_lt xs t j with he | hv
        · rw [he] at hlt; omega
        · exact hv
      · rcases List.mem_cons.1 hj' with h | hj''
        · subst h
          rcases bestIdx_eq_or_lt xs t b with he | hv
          · rw [he] at hlt; omega
          · exact lt_of_lt_of_le hv (le_of_not_lt hcmp)
        · exact ih b hs_bt j (List.mem_cons_of_mem _ hj'') hlt

theorem firstMinAt_idxOfMin (xs : List ℚ) (hne : xs ≠ []) :
    FirstMinAt xs (idxOfMin xs) :=
  ⟨idxOfMin_lt_length xs hne, idxOfMin_le xs, idxOfMin_first xs⟩

theorem firstMinAt_unique {xs : List ℚ} {i j : ℕ} (hi : FirstMinAt xs i)
    (hj : FirstMinAt xs j) : i = j := by
  rcases hi with ⟨hi1, hi2, hi3⟩
  rcases hj with ⟨hj1, hj2, hj3⟩
  rcases lt_trichotomy i j with h | h | h
  · exact absurd (hi2 j hj1) (not_le.2 (hj3 i h))
  · exact h
  · exact absurd (hj2 i hi1) (not_le.2 (hi3 j h))

theorem secondMinAt_unique {xs : List ℚ} {skip i j : ℕ}
    (hi : SecondMinAt xs skip i) (hj : SecondMinAt xs skip j) : i = j := by
  rcases hi with ⟨hi1, hine, hi2, hi3⟩
  rcases hj with ⟨hj1, hjne, hj2, hj3⟩
  rcases lt_trichotomy i j with h | h | h
  · exact absurd (hi2 j hj1 hjne) (not_le.2 (hj3 i h hine))
  · exact h
  · exact absurd (hj2 i hi1 hine) (not_le.2 (hi3 j h hjne))

theorem secondMinAt_idxOfMinExcept (xs : List ℚ) (skip : ℕ)
    (h2 : 2 ≤ xs.length) : SecondMinAt xs skip (idxOfMinExcept xs skip) := by
  have hmem_iff : ∀ m : ℕ,
      m ∈ (List.range xs.length).filter (fun i => i ≠ skip) ↔
        m < xs.length ∧ m ≠ skip := by
    intro m
    simp [List.mem_filter, List.mem_range]
  have hsorted : ((List.range xs.length).filter
      (fun i => i ≠ skip)).Sorted (· < ·) :=
    (List.pairwise_lt_range xs.length).filter _
  have hnonempty : (List.range xs.length).filter (fun i => i ≠ skip) ≠ [] := by
    intro hcontra
    by_cases hskip : skip = 0
    · have h1 : (1 : ℕ) ∈ (List.range xs.length).filter (fun i => i ≠ skip) :=
        (hmem_iff 1).2 ⟨by omega, by omega⟩
      rw [hcontra] at h1; cases h1
    · have h0 : (0 : ℕ) ∈ (List.range xs.length).filter (fun i => i ≠ skip) :=
        (hmem_iff 0).2 ⟨by omega, by omega⟩
      rw [hcontra] at h0; cases h0
  unfold idxOfMinExcept
  rcases hm : (List.range xs.length).filter (fun i => i ≠ skip) with _ | ⟨i, t⟩
  · exact absurd hm hnonempty
  show SecondMinAt xs skip (bestIdx xs t i)
  rw [hm] at hmem_iff
  have hres : bestIdx xs t i ∈ i :: t := bestIdx_mem xs t i
  rcases (hmem_iff _).1 hres with ⟨hlen, hneq⟩
  have hs : (i :: t).Sorted (· < ·) := by rw [hm] at hsorted; exact hsorted
  refine ⟨hlen, hneq, fun k hk hkneq => ?_, fun k hk hkneq => ?_⟩
  · exact bestIdx_le xs t i k ((hmem_iff k).2 ⟨hk, hkneq⟩)
  · exact bestIdx_first xs t i hs k
      ((hmem_iff k).2 ⟨lt_trans hk hlen, hkneq⟩) hk

theorem getD_map_neg (xs : List ℚ) (k : ℕ) (hk : k < xs.length) :
    (xs.map (fun x => -x)).getD k 0 = -(xs.getD k 0) := by
  rw [List.getD_eq_getElem?_getD, List.getD_eq_getElem?_getD, List.getElem?_map,
    List.getElem?_eq_getElem hk]
  simp

theorem firstMaxAt_iff_neg (xs : List ℚ) (i : ℕ) :
    FirstMaxAt xs i ↔ FirstMinAt (xs.map (fun x => -x)) i := by
  unfold FirstMaxAt FirstMinAt
  rw [List.length_map]
  constructor
  · rintro ⟨h1, h2, h3⟩
    refine ⟨h1, fun k hk => ?_, fun k hk => ?_⟩
    · rw [getD_map_neg _ _ h1, getD_map_neg _ _ hk]
      exact neg_le_neg (h2 k hk)
    · rw [getD_map_neg _ _ h1, getD_map_neg _ _ (lt_trans hk h1)]
      exact neg_lt_neg (h3 k hk)
  · rintro ⟨h1, h2, h3⟩
    refine ⟨h1, fun k hk => ?_, fun k hk => ?_⟩
    · have := h2 k hk
      rw [getD_map_neg _ _ h1, getD_map_neg _ _ hk] at this
      linarith
    · have := h3 k hk
      rw [getD_map_neg _ _ h1, getD_map_neg _ _ (lt_trans hk h1)] at this
      linarith

theorem secondMaxAt_iff_neg (xs : List ℚ) (i j : ℕ) :
    SecondMaxAt xs i j ↔ SecondMinAt (xs.map (fun x => -x)) i j := by
  unfold SecondMaxAt SecondMinAt
  rw [List.length_map]
  constructor
  · rintro ⟨h1, hne, h2, h3⟩
    refine ⟨h1, hne, fun k hk hkne => ?_, fun k hk hkne => ?_⟩
    · rw [getD_map_neg _ _ h1, getD_map_neg _ _ hk]
      exact neg_le_neg (h2 k hk hkne)
    · rw [getD_map_neg _ _ h1, getD_map_neg _ _ (lt_trans hk h1)]
      exact neg_lt_neg (h3 k hk hkne)
  · rintro ⟨h1, hne, h2, h3⟩
    refine ⟨h1, hne, fun k hk hkne => ?_, fun k hk hkne => ?_⟩
    · have := h2 k hk hkne
      rw [getD_map_neg _ _ h1, getD_map_neg _ _ hk] at this
      linarith
    · have := h3 k hk hkne
      rw [getD_map_neg _ _ h1, getD_map_neg _ _ (lt_trans hk h1)] at this
      linarith

theorem firstMaxAt_idxOfMax (xs : List ℚ) (hne : xs ≠ []) :
    FirstMaxAt xs (idxOfMax xs) := by
  rw [firstMaxAt_iff_neg]
  exact firstMinAt_idxOfMin _ (by simpa using hne)

theorem firstMaxAt_unique {xs : List ℚ} {i j : ℕ} (hi : FirstMaxAt xs i)
    (hj : FirstMaxAt xs j) : i = j :=
  firstMinAt_unique ((firstMaxAt_iff_neg xs i).1 hi)
    ((firstMaxAt_iff_neg xs j).1 hj)

theorem secondMaxAt_idxOfMaxExcept (xs : List ℚ) (skip : ℕ)
    (h2 : 2 ≤ xs.length) : SecondMaxAt xs skip (idxOfMaxExcept xs skip) := by
  rw [secondMaxAt_iff_neg]
  exact secondMinAt_idxOfMinExcept _ _ (by simpa using h2)

theorem secondMaxAt_unique {xs : List ℚ} {skip i j : ℕ}
    (hi : SecondMaxAt xs skip i) (hj : SecondMaxAt xs skip j) : i = j :=
  secondMinAt_unique ((secondMaxAt_iff_neg xs skip i).1 hi)
    ((secondMaxAt_iff_neg xs skip j).1 hj)

theorem lastN_length {α : Type} (n : ℕ) (xs : List α) :
    (lastN n xs).length = min n xs.length := by
  simp only [lastN, List.length_drop]
  omega

/-- Spec-side (amended): the value-ordered bullish rule — the two lowest
prices of the trailing window, taken in value order with ties resolved to the
earlier position; bullish when the second-lowest price strictly exceeds the
lowest while the indicator at the second-lowest's position is strictly below
the indicator at the lowest's position. -/
def bullishValueRule (prices indicator : List ℚ) (lookback : ℕ) : Prop :=
  ∃ i j, FirstMinAt (lastN lookback prices) i ∧
    SecondMinAt (lastN lookback prices) i j ∧
    (lastN lookback prices).getD i 0 < (lastN lookback prices).getD j 0 ∧
    (lastN lookback indicator).getD j 0 < (lastN lookback indicator).getD i 0

/-- Spec-side (amended): the value-ordered bearish rule, dual to
`bullishValueRule` over the two highest prices. -/
def bearishValueRule (prices indicator : List ℚ) (lookback : ℕ) : Prop :=
  ∃ i j, FirstMaxAt (lastN lookback prices) i ∧
    SecondMaxAt (lastN lookback prices) i j ∧
    (lastN lookback prices).getD j 0 < (lastN lookback prices).getD i 0 ∧
    (lastN lookback indicator).getD i 0 < (lastN lookback indicator).getD j 0

/-- C4 (amended): `detect_divergence` classifies by the VALUE order of the two
extreme price samples (as `nsmallest`/`nlargest` return them), not by their
chronological order; bullish is checked first. -/
theorem C4_divergence_amended (prices indicator : List ℚ) (lookback : ℕ)
    (hlb : 2 ≤ lookback) (hlen : lookback * 2 ≤ prices.length) :
    (detect_divergence prices indicator lookback = some .bullish ↔
      bullishValueRule prices indicator lookback) ∧
    (detect_divergence prices indicator lookback = some .bearish ↔
      ¬ bullishValueRule prices indicator lookback ∧
        bearishValueRule prices indicator lookback) := by
  have hrplen : (lastN lookback prices).length = lookback := by
    rw [lastN_length]; omega
  have hrpne : lastN lookback prices ≠ [] := by
    intro hc
    rw [hc] at hrplen
    simp at hrplen
    omega
  have h2 : 2 ≤ (lastN lookback prices).length := by omega
  have hd : detect_divergence prices indicator lookback =
      (if (lastN lookback prices).getD (idxOfMin (lastN lookback prices)) 0 <
            (lastN lookback prices).getD
              (idxOfMinExcept (lastN lookback prices)
                (idxOfMin (lastN lookback prices))) 0 ∧
          (lastN lookback indicator).getD
              (idxOfMinExcept (lastN lookback prices)
                (idxOfMin (lastN lookback prices))) 0 <
            (lastN lookback indicator).getD
              (idxOfMin (lastN lookback prices)) 0 then
        some Divergence.bullish
      else if (lastN lookback prices).getD
            (idxOfMaxExcept (lastN lookback prices)
              (idxOfMax (lastN lookback prices))) 0 <
            (lastN lookback prices).getD (idxOfMax (lastN lookback prices)) 0 ∧
          (lastN lookback indicator).getD
              (idxOfMax (lastN lookback prices)) 0 <
            (lastN lookback indicator).getD
              (idxOfMaxExcept (lastN lookback prices)
                (idxOfMax (lastN lookback prices))) 0 then
        some Divergence.bearish
      else none) := by
    unfold detect_divergence
    rw [if_neg (by omega)]
    dsimp only
    rw [if_pos h2]
  have hbull_iff :
      ((lastN lookback prices).getD (idxOfMin (lastN lookback prices)) 0 <
          (lastN lookback prices).getD
            (idxOfMinExcept (lastN lookback prices)
              (idxOfMin (lastN lookback prices))) 0 ∧
        (lastN lookback indicator).getD
            (idxOfMinExcept (lastN lookback prices)
              (idxOfMin (lastN lookback prices))) 0 <
          (lastN lookback indicator).getD
            (idxOfMin (lastN lookback prices)) 0) ↔
        bullishValueRule prices indicator lookback := by
    constructor
    · intro h
      exact ⟨idxOfMin (lastN lookback prices),
        idxOfMinExcept (lastN lookback prices) (idxOfMin (lastN lookback prices)),
        firstMinAt_idxOfMin _ hrpne,
        secondMinAt_idxOfMinExcept _ _ h2, h.1, h.2⟩
    · rintro ⟨i, j, hf, hs, hp, hi⟩
      have hie : i = idxOfMin (lastN lookback prices) :=
        firstMinAt_unique hf (firstMinAt_idxOfMin _ hrpne)
      subst hie
      have hje : j = idxOfMinExcept (lastN lookback prices)
          (idxOfMin (lastN lookback prices)) :=
        secondMinAt_unique hs (secondMinAt_idxOfMinExcept _ _ h2)
      subst hje
      exact ⟨hp, hi⟩
  have hbear_iff :
      ((lastN lookback prices).getD
          (idxOfMaxExcept (lastN lookback prices)
            (idxOfMax (lastN lookback prices))) 0 <
          (lastN lookback prices).getD (idxOfMax (lastN lookback prices)) 0 ∧
        (lastN lookback indicator).getD
            (idxOfMax (lastN lookback prices)) 0 <
          (lastN lookback indicator).getD
            (idxOfMaxExcept (lastN lookback prices)
              (idxOfMax (lastN lookback prices))) 0) ↔
        bearishValueRule prices indicator lookback := by
    constructor
    · intro h
      exact ⟨idxOfMax (lastN lookback prices),
        idxOfMaxExcept (lastN lookback prices) (idxOfMax (lastN lookback prices)),
        firstMaxAt_idxOfMax _ hrpne,
        secondMaxAt_idxOfMaxExcept _ _ h2, h.1, h.2⟩
    · rintro ⟨i, j, hf, hs, hp, hi⟩
      have hie : i = idxOfMax (lastN lookback prices) :=
        firstMaxAt_unique hf (firstMaxAt_idxOfMax _ hrpne)
      subst hie
      have hje : j = idxOfMaxExcept (lastN lookback prices)
          (idxOfMax (lastN lookback prices)) :=
        secondMaxAt_unique hs (secondMaxAt_idxOfMaxExcept _ _ h2)
      subst hje
      exact ⟨hp, hi⟩
  rw [hd]
  constructor
  · constructor
    · intro h
      split_ifs at h with hc1 hc2
      all_goals
        first
        | exact hbull_iff.1 hc1
        | exact absurd h (by simp)
    · intro hrule
      rw [if_pos (hbull_iff.2 hrule)]
  · constructor
    · intro h
      split_ifs at h with hc1 hc2
      all_goals
        first
        | exact ⟨fun hrule => hc1 (hbull_iff.2 hrule), hbear_iff.1 hc2⟩
        | exact absurd h (by simp)
    · rintro ⟨hnb, hrule⟩
      rw [if_neg (fun hc => hnb (hbull_iff.1 hc)), if_pos (hbear_iff.2 hrule)]

/-- The 20-sample price series whose trailing window has its lowest price at
the last position (chronologically latest) and its second-lowest much
earlier. -/
def divPrices : List ℚ :=
  (List.replicate 10 100) ++ [10, 9, 50, 50, 50, 50, 50, 50, 50, 5]

/-- Indicator series aligned with `divPrices`. -/
def divIndicator : List ℚ :=
  (List.replicate 10 0) ++ [0, 1, 0, 0, 0, 0, 0, 0, 0, 2]

/-- Claim-side rule as stated in C4: among the two lowest price samples of
the trailing window, the chronologically later low is higher while the
indicator at the later low is lower. -/
def bullishChronoRule (prices indicator : List ℚ) (lookback : ℕ) : Prop :=
  let rp := lastN lookback prices
  let ri := lastN lookback indicator
  let i1 := idxOfMin rp
  let i2 := idxOfMinExcept rp i1
  rp.getD (min i1 i2) 0 < rp.getD (max i1 i2) 0 ∧
    ri.getD (max i1 i2) 0 < ri.getD (min i1 i2) 0

/-- Counterexample to C4 as stated: the code classifies this series bullish,
yet chronologically the later of the two lows (price 5, last position) is
LOWER than the earlier one (price 9), so the claimed chronological rule does
not hold — `nsmallest` ordering is by value, not by time. -/
theorem C4_divergence_counterexample :
    detect_divergence divPrices divIndicator 10 = some Divergence.bullish ∧
    ¬ bullishChronoRule divPrices divIndicator 10 := by
  constructor
  · norm_num [detect_divergence, divPrices, divIndicator, lastN, idxOfMin,
      idxOfMinExcept, idxOfMax, idxOfMaxExcept, bestIdx, List.replicate,
      List.range_succ]
  · intro hc
    rcases hc with ⟨h1, -⟩
    norm_num [divPrices, lastN, idxOfMin, idxOfMinExcept, bestIdx,
      List.replicate, List.range_succ] at h1

/-- Witness for the amended C4 at the concrete series: the code output and
the value-ordered rule agree (both bullish). -/
theorem C4_divergence_amended_witness :
    detect_divergence divPrices divIndicator 10 = some Divergence.bullish ∧
    bullishValueRule divPrices divIndicator 10 := by
  have hgen : detect_divergence divPrices divIndicator 10 =
      some Divergence.bullish := by
    norm_num [detect_divergence, divPrices, divIndicator, lastN, idxOfMin,
      idxOfMinExcept, idxOfMax, idxOfMaxExcept, bestIdx, List.replicate,
      List.range_succ]
  exact ⟨hgen,
    ((C4_divergence_amended divPrices divIndicator 10 (by norm_num)
        (by decide)).1).1 hgen⟩
/-!  ## C5: Bollinger bands — sample versus population standard deviation  -/

theorem range_map_getD {α : Type} (f : ℕ → α) (m i : ℕ) (d : α) (hi : i < m) :
    ((List.range m).map f).getD i d = f i := by
  rw [List.getD_eq_getElem?_getD, List.getElem?_map, List.getElem?_range hi]
  rfl

/-- The trailing window of `period` samples ending at position `i`, written
directly as the spec describes it. -/
def bollWindow (prices : List ℚ) (period i : ℕ) : List ℚ :=
  (prices.drop (i + 1 - period)).take period

theorem rwindows_getD {α : Type} (n : ℕ) (xs : List α) (i : ℕ)
    (hn : n ≤ i + 1) (hi : i < xs.length) :
    (rwindows n xs).getD i none = some ((xs.drop (i + 1 - n)).take n) := by
  unfold rwindows
  rw [range_map_getD _ _ _ _ hi, if_pos hn]
  congr 1
  rw [List.drop_take]
  congr 1
  omega

theorem bollWindow_length (prices : List ℚ) (period i : ℕ)
    (hn : period ≤ i + 1) (hi : i < prices.length) :
    (bollWindow prices period i).length = period := by
  simp only [bollWindow, List.length_take, List.length_drop]
  omega

/-- C5 (amended): at every defined position the middle band is the simple
moving average of the trailing window and the upper/lower bands are
middle ± k times the SAMPLE standard deviation (divisor N−1, pandas ddof=1),
not the population standard deviation. -/
theorem C5_bollinger_amended (ps : List ℚ) (n : ℕ) (k : ℚ) (i : ℕ)
    (h2 : 2 ≤ n) (hn : n ≤ i + 1) (hi : i < ps.length) :
    (calculate_bollinger_middle ps n).getD i none =
      some ((bollWindow ps n i).sum / (n : ℚ)) ∧
    (calculate_bollinger_upper ps n k).getD i none =
      some ((((bollWindow ps n i).sum / (n : ℚ) : ℚ) : ℝ) + (k : ℝ) *
        Real.sqrt ((((bollWindow ps n i).map
            (fun x => (x - (bollWindow ps n i).sum / (n : ℚ)) ^ 2)).sum /
          ((n : ℚ) - 1) : ℚ))) ∧
    (calculate_bollinger_lower ps n k).getD i none =
      some ((((bollWindow ps n i).sum / (n : ℚ) : ℚ) : ℝ) - (k : ℝ) *
        Real.sqrt ((((bollWindow ps n i).map
            (fun x => (x - (bollWindow ps n i).sum / (n : ℚ)) ^ 2)).sum /
          ((n : ℚ) - 1) : ℚ))) := by
  have hw : (rwindows n ps).getD i none = some (bollWindow ps n i) :=
    rwindows_getD n ps i hn hi
  have hlen : (bollWindow ps n i).length = n := bollWindow_length ps n i hn hi
  have hsma : smaQ (bollWindow ps n i) = (bollWindow ps n i).sum / (n : ℚ) := by
    unfold smaQ
    rw [hlen]
  have hvar : sampleVarQ (bollWindow ps n i) =
      some (((bollWindow ps n i).map
          (fun x => (x - (bollWindow ps n i).sum / (n : ℚ)) ^ 2)).sum /
        ((n : ℚ) - 1)) := by
    unfold sampleVarQ
    rw [if_pos (by omega : 2 ≤ (bollWindow ps n i).length), hlen, hsma]
  refine ⟨?_, ?_, ?_⟩
  · unfold calculate_bollinger_middle rollMeanQ
    rw [List.getD_eq_getElem?_getD, List.getElem?_map]
    rw [List.getD_eq_getElem?_getD] at hw
    rcases hx : (rwindows n ps)[i]? with _ | w
    · rw [hx] at hw; simp at hw
    · rw [hx] at hw
      simp only [Option.getD_some] at hw
      simp [hw]
  · unfold calculate_bollinger_upper
    rw [List.getD_eq_getElem?_getD, List.getElem?_map]
    rw [List.getD_eq_getElem?_getD] at hw
    rcases hx : (rwindows n ps)[i]? with _ | w
    · rw [hx] at hw; simp at hw
    · rw [hx] at hw
      simp only [Option.getD_some] at hw
      simp [hw, hvar, hsma]
  · unfold calculate_bollinger_lower
    rw [List.getD_eq_getElem?_getD, List.getElem?_map]
    rw [List.getD_eq_getElem?_getD] at hw
    rcases hx : (rwindows n ps)[i]? with _ | w
    · rw [hx] at hw; simp at hw
    · rw [hx] at hw
      simp only [Option.getD_some] at hw
      simp [hw, hvar, hsma]

theorem rwindows_length {α : Type} (n : ℕ) (xs : List α) :
    (rwindows n xs).length = xs.length := by
  simp [rwindows]

theorem getD_map_eval {α β : Type} (g : α → β) (xs : List α) (i : ℕ)
    (hi : i < xs.length) (d : β) (d' : α) :
    (xs.map g).getD i d = g (xs.getD i d') := by
  rw [List.getD_eq_getElem?_getD, List.getD_eq_getElem?_getD,
    List.getElem?_map, List.getElem?_eq_getElem hi]
  simp

/-- Spec-side: Bollinger upper band computed with the POPULATION standard
deviation (divisor N), exactly as the spec words it. -/
noncomputable def bollinger_upper_population_spec (prices : List ℚ)
    (period : ℕ) (std_dev : ℚ) : List (Option ℝ) :=
  (rwindows period prices).map
    (fun w? => w?.map (fun w =>
      ((smaQ w : ℚ) : ℝ) + (std_dev : ℝ) *
        Real.sqrt (((w.map (fun x => (x - smaQ w) ^ 2)).sum /
          (w.length : ℚ) : ℚ))))

/-- Counterexample to C5 as stated: on the two-sample series `[0, 2]` with
period 2 and k = 2 the code's upper band is `1 + 2·√2` (sample standard
deviation, divisor N−1 = 1) whereas the population formula of the spec gives
`1 + 2·√1 = 3`. -/
theorem C5_bollinger_counterexample :
    (calculate_bollinger_upper [0, 2] 2 2).getD 1 none ≠
      (bollinger_upper_population_spec [0, 2] 2 2).getD 1 none := by
  have hw : (rwindows 2 ([0, 2] : List ℚ)).getD 1 none = some [0, 2] := by
    have := rwindows_getD 2 ([0, 2] : List ℚ) 1 (by norm_num) (by norm_num)
    simpa using this
  have hilen : 1 < (rwindows 2 ([0, 2] : List ℚ)).length := by
    rw [rwindows_length]; norm_num
  have hvar : sampleVarQ ([0, 2] : List ℚ) = some 2 := by
    norm_num [sampleVarQ, smaQ]
  have hsma : smaQ ([0, 2] : List ℚ) = 1 := by norm_num [smaQ]
  have hcode : (calculate_bollinger_upper [0, 2] 2 2).getD 1 none =
      some ((1 : ℝ) + 2 * Real.sqrt 2) := by
    unfold calculate_bollinger_upper
    rw [getD_map_eval _ _ 1 hilen none none, hw]
    simp [hvar, hsma]
  have hpop : (bollinger_upper_population_spec [0, 2] 2 2).getD 1 none =
      some (3 : ℝ) := by
    unfold bollinger_upper_population_spec
    rw [getD_map_eval _ _ 1 hilen none none, hw]
    simp [hsma, sampleVarQ, smaQ]
    norm_num [Real.sqrt_one]
  rw [hcode, hpop]
  intro h
  have h2 : (1 : ℝ) + 2 * Real.sqrt 2 = 3 := Option.some.inj h
  have hs : Real.sqrt 2 = 1 := by linarith
  have : (2 : ℝ) = 1 := by
    have := Real.sq_sqrt (by norm_num : (0 : ℝ) ≤ 2)
    rw [hs] at this
    linarith [this]
  norm_num at this

/-- Witness for the amended C5 at `prices = [0, 2, 4]`, period 2, k = 1,
position 2. -/
theorem C5_bollinger_amended_witness :
    (calculate_bollinger_middle [0, 2, 4] 2).getD 2 none =
      some ((bollWindow [0, 2, 4] 2 2).sum / (2 : ℚ)) ∧
    (calculate_bollinger_upper [0, 2, 4] 2 1).getD 2 none =
      some ((((bollWindow [0, 2, 4] 2 2).sum / (2 : ℚ) : ℚ) : ℝ) + (1 : ℝ) *
        Real.sqrt ((((bollWindow [0, 2, 4] 2 2).map
            (fun x => (x - (bollWindow [0, 2, 4] 2 2).sum / (2 : ℚ)) ^ 2)).sum /
          ((2 : ℚ) - 1) : ℚ))) ∧
    (calculate_bollinger_lower [0, 2, 4] 2 1).getD 2 none =
      some ((((bollWindow [0, 2, 4] 2 2).sum / (2 : ℚ) : ℚ) : ℝ) - (1 : ℝ) *
        Real.sqrt ((((bollWindow [0, 2, 4] 2 2).map
            (fun x => (x - (bollWindow [0, 2, 4] 2 2).sum / (2 : ℚ)) ^ 2)).sum /
          ((2 : ℚ) - 1) : ℚ))) := by
  have h := C5_bollinger_amended [0, 2, 4] 2 1 2 (by norm_num) (by norm_num)
    (by norm_num)
  simpa using h
/-!  ## C2/C9: concrete Bollinger Squeeze evaluations  -/

theorem lastO_range_map {α : Type} (f : ℕ → Option α) (m : ℕ) (hm : 0 < m) :
    lastO ((List.range m).map f) = f (m - 1) := by
  unfold lastO
  rw [List.getLast?_eq_getElem?, List.length_map, List.length_range,
    List.getElem?_map, List.getElem?_range (by omega : m - 1 < m)]
  simp

theorem lastO_rollMeanQ (n : ℕ) (xs : List ℚ) (h : 0 < xs.length)
    (hn : n ≤ xs.length) :
    lastO (rollMeanQ n xs) = some ((lastN n xs).sum / (n : ℚ)) := by
  unfold rollMeanQ rwindows
  rw [List.map_map, lastO_range_map _ _ h]
  simp only [Function.comp_apply]
  rw [if_pos (by omega : n ≤ xs.length - 1 + 1)]
  have h1 : xs.length - 1 + 1 = xs.length := by omega
  rw [h1, List.take_length]
  rfl

theorem lastO_rollMeanO {α : Type} [DivisionRing α] (n : ℕ)
    (xs : List (Option α)) (h : 0 < xs.length) (hn : n ≤ xs.length) :
    lastO (rollMeanO n xs) =
      (seqOpt (lastN n xs)).map (fun w => w.sum / (n : α)) := by
  unfold rollMeanO
  rw [lastO_range_map _ _ h]
  rw [if_pos (by omega : n ≤ xs.length - 1 + 1)]
  have h1 : xs.length - 1 + 1 = xs.length := by omega
  rw [h1, List.take_length]
  rfl

/-- A candle with all four prices equal (zero true range against an equal
previous close). -/
def pointCandle (c : ℚ) : Candle := ⟨c, c, c, c, 1⟩

/-- Closes of the C2 counterexample window: flat at 1000, a dip to 900 and a
bump to the 1019–1057 range, then 15 flat candles (so the current ATR is
exactly zero while the Bollinger windows still carry spread). -/
def clsW1 : List ℚ :=
  (List.replicate 19 1000) ++ [900, 1019, 1019, 1038, 1057, 1057] ++
    (List.replicate 15 1000)

/-- The 40 point-candles of the C2 counterexample. -/
def W1 : List Candle := clsW1.map pointCandle

/-- The Bollinger Squeeze strategy with `bb_period = 20`, `bb_std = 0.1`,
`atr_period = 14`. -/
def S0 : BollingerSqueezeStrategy := bs_init 20 (1 / 10) 14

theorem clsW1_length : clsW1.length = 40 := by norm_num [clsW1]

theorem S0_bb_period : S0.bb_period = 20 := rfl

theorem S0_bb_std : S0.bb_std = 1 / 10 := rfl

theorem S0_atr_period : S0.atr_period = 14 := rfl

theorem closesOf_W1 : closesOf W1 = clsW1 := by
  unfold closesOf W1
  rw [List.map_map]
  have h : ((fun x : Candle => x.close) ∘ pointCandle) = id := rfl
  rw [h, List.map_id]

theorem highsOf_W1 : highsOf W1 = clsW1 := by
  unfold highsOf W1
  rw [List.map_map]
  have h : ((fun x : Candle => x.high) ∘ pointCandle) = id := rfl
  rw [h, List.map_id]

theorem lowsOf_W1 : lowsOf W1 = clsW1 := by
  unfold lowsOf W1
  rw [List.map_map]
  have h : ((fun x : Candle => x.low) ∘ pointCandle) = id := rfl
  rw [h, List.map_id]

theorem volumesOf_W1 : volumesOf W1 = List.replicate 40 1 := by
  unfold volumesOf W1
  rw [List.map_map]
  have h : ((fun x : Candle => x.volume) ∘ pointCandle) =
      (fun _ => (1 : ℚ)) := rfl
  rw [h, List.map_const']
  rw [clsW1_length]

theorem W1_length : W1.length = 40 := by
  simp [W1, clsW1_length]

/-- True ranges of `W1`: `|Δclose|` for point candles. -/
theorem trList_W1 : trList clsW1 clsW1 clsW1 =
    (List.replicate 19 0) ++ [100, 119, 0, 19, 19, 0, 57] ++
      (List.replicate 14 0) := by
  norm_num [trList, clsW1, List.range_succ, List.replicate]

theorem bs_current_atr_W1 : bs_current_atr S0 W1 = 0 := by
  unfold bs_current_atr calculate_atr
  rw [S0_atr_period, highsOf_W1, lowsOf_W1, closesOf_W1, trList_W1]
  rw [lastO_rollMeanQ 14 _ (by norm_num) (by norm_num)]
  norm_num [lastN, List.replicate]

theorem bs_avg_atr_W1 : bs_avg_atr S0 W1 = 1553 / 105 := by
  unfold bs_avg_atr calculate_atr
  rw [S0_atr_period, highsOf_W1, lowsOf_W1, closesOf_W1, trList_W1]
  have hlen : (rollMeanQ 14 ((List.replicate 19 (0:ℚ)) ++
      [100, 119, 0, 19, 19, 0, 57] ++ (List.replicate 14 0))).length = 40 := by
    simp [rollMeanQ, rwindows, List.map_map]
  rw [lastO_rollMeanO 15 _ (by rw [hlen]; norm_num) (by rw [hlen]; norm_num)]
  have hroll : lastN 15 (rollMeanQ 14 ((List.replicate 19 (0:ℚ)) ++
      [100, 119, 0, 19, 19, 0, 57] ++ (List.replicate 14 0))) =
      [some (157/7), some (157/7), some (157/7), some (157/7), some (157/7),
       some (157/7), some (157/7), some (157/7), some (107/7), some (95/14),
       some (95/14), some (38/7), some (57/14), some (57/14), some 0] := by
    norm_num [rollMeanQ, rwindows, lastN, List.range_succ, List.replicate]
  rw [hroll]
  norm_num [seqOpt]

theorem sqrt_rat_961 : Real.sqrt ((961 : ℚ) : ℝ) = ((31 : ℚ) : ℝ) := by
  rw [show ((961 : ℚ) : ℝ) = 31 ^ 2 by norm_num]
  rw [Real.sqrt_sq (by norm_num : (0 : ℝ) ≤ 31)]
  norm_num

theorem sqrt_rat_361 : Real.sqrt ((361 : ℚ) : ℝ) = ((19 : ℚ) : ℝ) := by
  rw [show ((361 : ℚ) : ℝ) = 19 ^ 2 by norm_num]
  rw [Real.sqrt_sq (by norm_num : (0 : ℝ) ≤ 19)]
  norm_num

theorem upper_getD_eval (ps : List ℚ) (n : ℕ) (k : ℚ) (i : ℕ) (w : List ℚ)
    (v : ℚ) (hi : i < ps.length)
    (hw : (rwindows n ps).getD i none = some w)
    (hv : sampleVarQ w = some v) :
    (calculate_bollinger_upper ps n k).getD i none =
      some (((smaQ w : ℚ) : ℝ) + (k : ℝ) * Real.sqrt ((v : ℚ) : ℝ)) := by
  unfold calculate_bollinger_upper
  rw [getD_map_eval _ _ i (by rw [rwindows_length]; exact hi) none none, hw]
  simp [hv]

theorem lower_getD_eval (ps : List ℚ) (n : ℕ) (k : ℚ) (i : ℕ) (w : List ℚ)
    (v : ℚ) (hi : i < ps.length)
    (hw : (rwindows n ps).getD i none = some w)
    (hv : sampleVarQ w = some v) :
    (calculate_bollinger_lower ps n k).getD i none =
      some (((smaQ w : ℚ) : ℝ) - (k : ℝ) * Real.sqrt ((v : ℚ) : ℝ)) := by
  unfold calculate_bollinger_lower
  rw [getD_map_eval _ _ i (by rw [rwindows_length]; exact hi) none none, hw]
  simp [hv]

theorem bs_width_at_W1 (i : ℕ) (hi : i < 40) (h20 : 20 ≤ i + 1) (v s : ℚ)
    (hv : sampleVarQ ((clsW1.drop (i + 1 - 20)).take 20) = some v)
    (hs : Real.sqrt ((v : ℚ) : ℝ) = ((s : ℚ) : ℝ))
    (hc : clsW1.getD i 0 = 1000) :
    bs_width_at S0 W1 i = some ((s / 5000 : ℚ) : ℝ) := by
  unfold bs_width_at
  rw [closesOf_W1, S0_bb_period, S0_bb_std]
  have hwin : (rwindows 20 clsW1).getD i none =
      some ((clsW1.drop (i + 1 - 20)).take 20) :=
    rwindows_getD 20 clsW1 i h20 (by rw [clsW1_length]; exact hi)
  rw [upper_getD_eval clsW1 20 (1 / 10) i _ v
      (by rw [clsW1_length]; exact hi) hwin hv,
    lower_getD_eval clsW1 20 (1 / 10) i _ v
      (by rw [clsW1_length]; exact hi) hwin hv, hs, hc]
  simp only [Option.some_bind', Option.map_some']
  congr 1
  push_cast
  ring

theorem lastO_eq_getD {α : Type} (xs : List (Option α)) :
    lastO xs = xs.getD (xs.length - 1) none := by
  unfold lastO
  rw [List.getLast?_eq_getElem?, List.getD_eq_getElem?_getD]
  cases hx : xs[xs.length - 1]? with
  | none => simp
  | some o => simp

theorem bs_widths_length_W1 : (bs_widths S0 W1).length = 40 := by
  unfold bs_widths
  rw [closesOf_W1, clsW1_length, List.length_map, List.length_range]

theorem bs_width_at_W1_25 : bs_width_at S0 W1 25 = some (((31 / 5000 : ℚ) : ℝ)) := by
  have hv : sampleVarQ ((clsW1.drop (25 + 1 - 20)).take 20) = some 961 := by
    norm_num [sampleVarQ, smaQ, clsW1, List.replicate]
  exact bs_width_at_W1 25 (by norm_num) (by norm_num) 961 31 hv
    sqrt_rat_961 (by norm_num [clsW1, List.replicate])
theorem bs_width_at_W1_26 : bs_width_at S0 W1 26 = some (((31 / 5000 : ℚ) : ℝ)) := by
  have hv : sampleVarQ ((clsW1.drop (26 + 1 - 20)).take 20) = some 961 := by
    norm_num [sampleVarQ, smaQ, clsW1, List.replicate]
  exact bs_width_at_W1 26 (by norm_num) (by norm_num) 961 31 hv
    sqrt_rat_961 (by norm_num [clsW1, List.replicate])
theorem bs_width_at_W1_27 : bs_width_at S0 W1 27 = some (((31 / 5000 : ℚ) : ℝ)) := by
  have hv : sampleVarQ ((clsW1.drop (27 + 1 - 20)).take 20) = some 961 := by
    norm_num [sampleVarQ, smaQ, clsW1, List.replicate]
  exact bs_width_at_W1 27 (by norm_num) (by norm_num) 961 31 hv
    sqrt_rat_961 (by norm_num [clsW1, List.replicate])
theorem bs_width_at_W1_28 : bs_width_at S0 W1 28 = some (((31 / 5000 : ℚ) : ℝ)) := by
  have hv : sampleVarQ ((clsW1.drop (28 + 1 - 20)).take 20) = some 961 := by
    norm_num [sampleVarQ, smaQ, clsW1, List.replicate]
  exact bs_width_at_W1 28 (by norm_num) (by norm_num) 961 31 hv
    sqrt_rat_961 (by norm_num [clsW1, List.replicate])
theorem bs_width_at_W1_29 : bs_width_at S0 W1 29 = some (((31 / 5000 : ℚ) : ℝ)) := by
  have hv : sampleVarQ ((clsW1.drop (29 + 1 - 20)).take 20) = some 961 := by
    norm_num [sampleVarQ, smaQ, clsW1, List.replicate]
  exact bs_width_at_W1 29 (by norm_num) (by norm_num) 961 31 hv
    sqrt_rat_961 (by norm_num [clsW1, List.replicate])
theorem bs_width_at_W1_30 : bs_width_at S0 W1 30 = some (((31 / 5000 : ℚ) : ℝ)) := by
  have hv : sampleVarQ ((clsW1.drop (30 + 1 - 20)).take 20) = some 961 := by
    norm_num [sampleVarQ, smaQ, clsW1, List.replicate]
  exact bs_width_at_W1 30 (by norm_num) (by norm_num) 961 31 hv
    sqrt_rat_961 (by norm_num [clsW1, List.replicate])
theorem bs_width_at_W1_31 : bs_width_at S0 W1 31 = some (((31 / 5000 : ℚ) : ℝ)) := by
  have hv : sampleVarQ ((clsW1.drop (31 + 1 - 20)).take 20) = some 961 := by
    norm_num [sampleVarQ, smaQ, clsW1, List.replicate]
  exact bs_width_at_W1 31 (by norm_num) (by norm_num) 961 31 hv
    sqrt_rat_961 (by norm_num [clsW1, List.replicate])
theorem bs_width_at_W1_32 : bs_width_at S0 W1 32 = some (((31 / 5000 : ℚ) : ℝ)) := by
  have hv : sampleVarQ ((clsW1.drop (32 + 1 - 20)).take 20) = some 961 := by
    norm_num [sampleVarQ, smaQ, clsW1, List.replicate]
  exact bs_width_at_W1 32 (by norm_num) (by norm_num) 961 31 hv
    sqrt_rat_961 (by norm_num [clsW1, List.replicate])
theorem bs_width_at_W1_33 : bs_width_at S0 W1 33 = some (((31 / 5000 : ℚ) : ℝ)) := by
  have hv : sampleVarQ ((clsW1.drop (33 + 1 - 20)).take 20) = some 961 := by
    norm_num [sampleVarQ, smaQ, clsW1, List.replicate]
  exact bs_width_at_W1 33 (by norm_num) (by norm_num) 961 31 hv
    sqrt_rat_961 (by norm_num [clsW1, List.replicate])
theorem bs_width_at_W1_34 : bs_width_at S0 W1 34 = some (((31 / 5000 : ℚ) : ℝ)) := by
  have hv : sampleVarQ ((clsW1.drop (34 + 1 - 20)).take 20) = some 961 := by
    norm_num [sampleVarQ, smaQ, clsW1, List.replicate]
  exact bs_width_at_W1 34 (by norm_num) (by norm_num) 961 31 hv
    sqrt_rat_961 (by norm_num [clsW1, List.replicate])
theorem bs_width_at_W1_35 : bs_width_at S0 W1 35 = some (((31 / 5000 : ℚ) : ℝ)) := by
  have hv : sampleVarQ ((clsW1.drop (35 + 1 - 20)).take 20) = some 961 := by
    norm_num [sampleVarQ, smaQ, clsW1, List.replicate]
  exact bs_width_at_W1 35 (by norm_num) (by norm_num) 961 31 hv
    sqrt_rat_961 (by norm_num [clsW1, List.replicate])
theorem bs_width_at_W1_36 : bs_width_at S0 W1 36 = some (((31 / 5000 : ℚ) : ℝ)) := by
  have hv : sampleVarQ ((clsW1.drop (36 + 1 - 20)).take 20) = some 961 := by
    norm_num [sampleVarQ, smaQ, clsW1, List.replicate]
  exact bs_width_at_W1 36 (by norm_num) (by norm_num) 961 31 hv
    sqrt_rat_961 (by norm_num [clsW1, List.replicate])
theorem bs_width_at_W1_37 : bs_width_at S0 W1 37 = some (((31 / 5000 : ℚ) : ℝ)) := by
  have hv : sampleVarQ ((clsW1.drop (37 + 1 - 20)).take 20) = some 961 := by
    norm_num [sampleVarQ, smaQ, clsW1, List.replicate]
  exact bs_width_at_W1 37 (by norm_num) (by norm_num) 961 31 hv
    sqrt_rat_961 (by norm_num [clsW1, List.replicate])
theorem bs_width_at_W1_38 : bs_width_at S0 W1 38 = some (((31 / 5000 : ℚ) : ℝ)) := by
  have hv : sampleVarQ ((clsW1.drop (38 + 1 - 20)).take 20) = some 961 := by
    norm_num [sampleVarQ, smaQ, clsW1, List.replicate]
  exact bs_width_at_W1 38 (by norm_num) (by norm_num) 961 31 hv
    sqrt_rat_961 (by norm_num [clsW1, List.replicate])
theorem bs_width_at_W1_39 : bs_width_at S0 W1 39 = some (((19 / 5000 : ℚ) : ℝ)) := by
  have hv : sampleVarQ ((clsW1.drop (39 + 1 - 20)).take 20) = some 361 := by
    norm_num [sampleVarQ, smaQ, clsW1, List.replicate]
  exact bs_width_at_W1 39 (by norm_num) (by norm_num) 361 19 hv
    sqrt_rat_361 (by norm_num [clsW1, List.replicate])
theorem bs_widths_W1_lastN :
    lastN 15 (bs_widths S0 W1) =
      (List.replicate 14 (some (((31 / 5000 : ℚ) : ℝ)))) ++
        [some (((19 / 5000 : ℚ) : ℝ))] := by
  unfold bs_widths
  rw [closesOf_W1, clsW1_length]
  unfold lastN
  rw [List.length_map, List.length_range]
  rw [show (40 : ℕ) - 15 = 25 by norm_num]
  rw [← List.map_drop]
  rw [show (List.range 40).drop 25 =
    [25, 26, 27, 28, 29, 30, 31, 32, 33, 34, 35, 36, 37, 38, 39] by
    norm_num [List.range_succ]]
  simp only [List.map_cons, List.map_nil]
  rw [bs_width_at_W1_25, bs_width_at_W1_26, bs_width_at_W1_27,
    bs_width_at_W1_28, bs_width_at_W1_29, bs_width_at_W1_30,
    bs_width_at_W1_31, bs_width_at_W1_32, bs_width_at_W1_33,
    bs_width_at_W1_34, bs_width_at_W1_35, bs_width_at_W1_36,
    bs_width_at_W1_37, bs_width_at_W1_38, bs_width_at_W1_39]
  norm_num [List.replicate]

theorem bs_avg_bb_width_W1 :
    bs_avg_bb_width S0 W1 = ((151 / 25000 : ℚ) : ℝ) := by
  unfold bs_avg_bb_width
  rw [lastO_rollMeanO 15 _ (by rw [bs_widths_length_W1]; norm_num)
    (by rw [bs_widths_length_W1]; norm_num)]
  rw [bs_widths_W1_lastN]
  norm_num [seqOpt, List.replicate]

theorem calculate_bollinger_upper_length (ps : List ℚ) (n : ℕ) (k : ℚ) :
    (calculate_bollinger_upper ps n k).length = ps.length := by
  unfold calculate_bollinger_upper
  rw [List.length_map, rwindows_length]

theorem calculate_bollinger_lower_length (ps : List ℚ) (n : ℕ) (k : ℚ) :
    (calculate_bollinger_lower ps n k).length = ps.length := by
  unfold calculate_bollinger_lower
  rw [List.length_map, rwindows_length]

theorem winW1_39 : (rwindows 20 clsW1).getD 39 none =
    some ((clsW1.drop (39 + 1 - 20)).take 20) :=
  rwindows_getD 20 clsW1 39 (by norm_num) (by rw [clsW1_length]; norm_num)

theorem varW1_39 : sampleVarQ ((clsW1.drop (39 + 1 - 20)).take 20) =
    some 361 := by
  norm_num [sampleVarQ, smaQ, clsW1, List.replicate]

theorem smaW1_39 : smaQ ((clsW1.drop (39 + 1 - 20)).take 20) = 2019 / 2 := by
  norm_num [smaQ, clsW1, List.replicate]

theorem bs_current_upper_W1 :
    bs_current_upper S0 W1 = ((5057 / 5 : ℚ) : ℝ) := by
  unfold bs_current_upper
  rw [closesOf_W1, S0_bb_period, S0_bb_std, lastO_eq_getD,
    calculate_bollinger_upper_length, clsW1_length]
  rw [show (40 : ℕ) - 1 = 39 by norm_num]
  rw [upper_getD_eval clsW1 20 (1 / 10) 39 _ 361
    (by rw [clsW1_length]; norm_num) winW1_39 varW1_39]
  rw [smaW1_39, sqrt_rat_361]
  push_cast
  norm_num

theorem bs_current_lower_W1 :
    bs_current_lower S0 W1 = ((5038 / 5 : ℚ) : ℝ) := by
  unfold bs_current_lower
  rw [closesOf_W1, S0_bb_period, S0_bb_std, lastO_eq_getD,
    calculate_bollinger_lower_length, clsW1_length]
  rw [show (40 : ℕ) - 1 = 39 by norm_num]
  rw [lower_getD_eval clsW1 20 (1 / 10) 39 _ 361
    (by rw [clsW1_length]; norm_num) winW1_39 varW1_39]
  rw [smaW1_39, sqrt_rat_361]
  push_cast
  norm_num

theorem clsW1_getLastD : clsW1.getLastD 0 = 1000 := by
  norm_num [clsW1, List.replicate, List.getLastD]

theorem bs_bb_width_W1 : bs_bb_width S0 W1 = ((19 / 5000 : ℚ) : ℝ) := by
  unfold bs_bb_width
  rw [bs_current_upper_W1, bs_current_lower_W1, closesOf_W1, clsW1_getLastD]
  push_cast
  norm_num

theorem bs_is_squeeze_W1 : bs_is_squeeze S0 W1 := by
  unfold bs_is_squeeze
  constructor
  · rw [bs_bb_width_W1, bs_avg_bb_width_W1]
    push_cast
    norm_num
  · rw [bs_current_atr_W1, bs_avg_atr_W1]
    norm_num
/-!  ### MACD evaluation on `W1` by stepwise EMA rewriting  -/

theorem calculate_ema_cons (p : ℚ) (t : List ℚ) (n : ℕ) (a : ℚ)
    (ha : 2 / ((n : ℚ) + 1) = a) : calculate_ema (p :: t) n = p :: emaGo a p t := by
  subst ha; rfl

theorem emaGo_cons (a prev p : ℚ) (t : List ℚ) (e : ℚ)
    (he : prev + a * (p - prev) = e) :
    emaGo a prev (p :: t) = e :: emaGo a e t := by
  subst he; rfl

theorem emaGo_nil (a prev : ℚ) : emaGo a prev [] = [] := rfl

theorem clsW1_lit : clsW1 =
    [1000,
    1000,
    1000,
    1000,
    1000,
    1000,
    1000,
    1000,
    1000,
    1000,
    1000,
    1000,
    1000,
    1000,
    1000,
    1000,
    1000,
    1000,
    1000,
    900,
    1019,
    1019,
    1038,
    1057,
    1057,
    1000,
    1000,
    1000,
    1000,
    1000,
    1000,
    1000,
    1000,
    1000,
    1000,
    1000,
    1000,
    1000,
    1000,
    1000] := by
  norm_num [clsW1, List.replicate]

set_option maxRecDepth 4000 in
theorem ema12_W1 : calculate_ema clsW1 12 =
    [1000,
    1000,
    1000,
    1000,
    1000,
    1000,
    1000,
    1000,
    1000,
    1000,
    1000,
    1000,
    1000,
    1000,
    1000,
    1000,
    1000,
    1000,
    1000,
    ((12800 : ℚ)/13),
    ((167294 : ℚ)/169),
    ((2184656 : ℚ)/2197),
    ((28592188 : ℚ)/28561),
    ((374892022 : ℚ)/371293),
    ((4908725644 : ℚ)/4826809),
    ((63649600084 : ℚ)/62748517),
    ((825642634924 : ℚ)/815730721),
    ((10713530426164 : ℚ)/10604499373),
    ((139057833433804 : ℚ)/137858491849),
    ((1805353151469844 : ℚ)/1792160394037),
    ((23443205454242284 : ℚ)/23298085122481),
    ((304471430241627124 : ℚ)/302875106592253),
    ((3954935945842404364 : ℚ)/3937376385699289),
    ((51379048175665026004 : ℚ)/51185893014090757),
    ((667541315960496800044 : ℚ)/665416609183179841),
    ((8673787693931824482484 : ℚ)/8650415919381337933),
    ((112712496472012745173324 : ℚ)/112455406951957393129),
    ((1464748275096054983164564 : ℚ)/1461920290375446110677),
    ((19036071606807497036164204 : ℚ)/19004963774880799438801),
    ((247406715224644066275408244 : ℚ)/247064529073450392704413)] := by
  rw [clsW1_lit]
  rw [calculate_ema_cons (1000) _ 12 (((2 : ℚ)/13)) (by norm_num)]
  rw [emaGo_cons (((2 : ℚ)/13)) (1000) (1000) _ (1000) (by norm_num)]
  rw [emaGo_cons (((2 : ℚ)/13)) (1000) (1000) _ (1000) (by norm_num)]
  rw [emaGo_cons (((2 : ℚ)/13)) (1000) (1000) _ (1000) (by norm_num)]
  rw [emaGo_cons (((2 : ℚ)/13)) (1000) (1000) _ (1000) (by norm_num)]
  rw [emaGo_cons (((2 : ℚ)/13)) (1000) (1000) _ (1000) (by norm_num)]
  rw [emaGo_cons (((2 : ℚ)/13)) (1000) (1000) _ (1000) (by norm_num)]
  rw [emaGo_cons (((2 : ℚ)/13)) (1000) (1000) _ (1000) (by norm_num)]
  rw [emaGo_cons (((2 : ℚ)/13)) (1000) (1000) _ (1000) (by norm_num)]
  rw [emaGo_cons (((2 : ℚ)/13)) (1000) (1000) _ (1000) (by norm_num)]
  rw [emaGo_cons (((2 : ℚ)/13)) (1000) (1000) _ (1000) (by norm_num)]
  rw [emaGo_cons (((2 : ℚ)/13)) (1000) (1000) _ (1000) (by norm_num)]
  rw [emaGo_cons (((2 : ℚ)/13)) (1000) (1000) _ (1000) (by norm_num)]
  rw [emaGo_cons (((2 : ℚ)/13)) (1000) (1000) _ (1000) (by norm_num)]
  rw [emaGo_cons (((2 : ℚ)/13)) (1000) (1000) _ (1000) (by norm_num)]
  rw [emaGo_cons (((2 : ℚ)/13)) (1000) (1000) _ (1000) (by norm_num)]
  rw [emaGo_cons (((2 : ℚ)/13)) (1000) (1000) _ (1000) (by norm_num)]
  rw [emaGo_cons (((2 : ℚ)/13)) (1000) (1000) _ (1000) (by norm_num)]
  rw [emaGo_cons (((2 : ℚ)/13)) (1000) (1000) _ (1000) (by norm_num)]
  rw [emaGo_cons (((2 : ℚ)/13)) (1000) (900) _ (((12800 : ℚ)/13)) (by norm_num)]
  rw [emaGo_cons (((2 : ℚ)/13)) (((12800 : ℚ)/13)) (1019) _ (((167294 : ℚ)/169)) (by norm_num)]
  rw [emaGo_cons (((2 : ℚ)/13)) (((167294 : ℚ)/169)) (1019) _ (((2184656 : ℚ)/2197)) (by norm_num)]
  rw [emaGo_cons (((2 : ℚ)/13)) (((2184656 : ℚ)/2197)) (1038) _ (((28592188 : ℚ)/28561)) (by norm_num)]
  rw [emaGo_cons (((2 : ℚ)/13)) (((28592188 : ℚ)/28561)) (1057) _ (((374892022 : ℚ)/371293)) (by norm_num)]
  rw [emaGo_cons (((2 : ℚ)/13)) (((374892022 : ℚ)/371293)) (1057) _ (((4908725644 : ℚ)/4826809)) (by norm_num)]
  rw [emaGo_cons (((2 : ℚ)/13)) (((4908725644 : ℚ)/4826809)) (1000) _ (((63649600084 : ℚ)/62748517)) (by norm_num)]
  rw [emaGo_cons (((2 : ℚ)/13)) (((63649600084 : ℚ)/62748517)) (1000) _ (((825642634924 : ℚ)/815730721)) (by norm_num)]
  rw [emaGo_cons (((2 : ℚ)/13)) (((825642634924 : ℚ)/815730721)) (1000) _ (((10713530426164 : ℚ)/10604499373)) (by norm_num)]
  rw [emaGo_cons (((2 : ℚ)/13)) (((10713530426164 : ℚ)/10604499373)) (1000) _ (((139057833433804 : ℚ)/137858491849)) (by norm_num)]
  rw [emaGo_cons (((2 : ℚ)/13)) (((139057833433804 : ℚ)/137858491849)) (1000) _ (((1805353151469844 : ℚ)/1792160394037)) (by norm_num)]
  rw [emaGo_cons (((2 : ℚ)/13)) (((1805353151469844 : ℚ)/1792160394037)) (1000) _ (((23443205454242284 : ℚ)/23298085122481)) (by norm_num)]
  rw [emaGo_cons (((2 : ℚ)/13)) (((23443205454242284 : ℚ)/23298085122481)) (1000) _ (((304471430241627124 : ℚ)/302875106592253)) (by norm_num)]
  rw [emaGo_cons (((2 : ℚ)/13)) (((304471430241627124 : ℚ)/302875106592253)) (1000) _ (((3954935945842404364 : ℚ)/3937376385699289)) (by norm_num)]
  rw [emaGo_cons (((2 : ℚ)/13)) (((3954935945842404364 : ℚ)/3937376385699289)) (1000) _ (((51379048175665026004 : ℚ)/51185893014090757)) (by norm_num)]
  rw [emaGo_cons (((2 : ℚ)/13)) (((51379048175665026004 : ℚ)/51185893014090757)) (1000) _ (((667541315960496800044 : ℚ)/665416609183179841)) (by norm_num)]
  rw [emaGo_cons (((2 : ℚ)/13)) (((667541315960496800044 : ℚ)/665416609183179841)) (1000) _ (((8673787693931824482484 : ℚ)/8650415919381337933)) (by norm_num)]
  rw [emaGo_cons (((2 : ℚ)/13)) (((8673787693931824482484 : ℚ)/8650415919381337933)) (1000) _ (((112712496472012745173324 : ℚ)/112455406951957393129)) (by norm_num)]
  rw [emaGo_cons (((2 : ℚ)/13)) (((112712496472012745173324 : ℚ)/112455406951957393129)) (1000) _ (((1464748275096054983164564 : ℚ)/1461920290375446110677)) (by norm_num)]
  rw [emaGo_cons (((2 : ℚ)/13)) (((1464748275096054983164564 : ℚ)/1461920290375446110677)) (1000) _ (((19036071606807497036164204 : ℚ)/19004963774880799438801)) (by norm_num)]
  rw [emaGo_cons (((2 : ℚ)/13)) (((19036071606807497036164204 : ℚ)/19004963774880799438801)) (1000) _ (((247406715224644066275408244 : ℚ)/247064529073450392704413)) (by norm_num)]
  rw [emaGo_nil]

set_option maxRecDepth 4000 in
theorem ema26_W1 : calculate_ema clsW1 26 =
    [1000,
    1000,
    1000,
    1000,
    1000,
    1000,
    1000,
    1000,
    1000,
    1000,
    1000,
    1000,
    1000,
    1000,
    1000,
    1000,
    1000,
    1000,
    1000,
    ((26800 : ℚ)/27),
    ((725026 : ℚ)/729),
    ((19611352 : ℚ)/19683),
    ((531145708 : ℚ)/531441),
    ((14402108974 : ℚ)/14348907),
    ((390386313748 : ℚ)/387420489),
    ((10534498821700 : ℚ)/10460353203),
    ((284283176948500 : ℚ)/282429536481),
    ((7671938496674500 : ℚ)/7625597484987),
    ((207049657386836500 : ℚ)/205891132094649),
    ((5588023698860210500 : ℚ)/5559060566555523),
    ((150818713604616308500 : ℚ)/150094635296999121),
    ((4070657110709405954500 : ℚ)/4052555153018976267),
    ((109871538073773101396500 : ℚ)/109418989131512359209),
    ((2965626430107352253330500 : ℚ)/2954312706550833698643),
    ((80049286165785473730548500 : ℚ)/79766443076872509863361),
    ((2160765040298381862990434500 : ℚ)/2153693963075557766310747),
    ((58326513933610662107382356500 : ℚ)/58149737003040059690390169),
    ((1574462322346346672065339250500 : ℚ)/1570042899082081611640534563),
    ((42501643856822830024914550388500 : ℚ)/42391158275216203514294433201),
    ((1147323412971003157651452626114500 : ℚ)/1144561273430837494885949696427)] := by
  rw [clsW1_lit]
  rw [calculate_ema_cons (1000) _ 26 (((2 : ℚ)/27)) (by norm_num)]
  rw [emaGo_cons (((2 : ℚ)/27)) (1000) (1000) _ (1000) (by norm_num)]
  rw [emaGo_cons (((2 : ℚ)/27)) (1000) (1000) _ (1000) (by norm_num)]
  rw [emaGo_cons (((2 : ℚ)/27)) (1000) (1000) _ (1000) (by norm_num)]
  rw [emaGo_cons (((2 : ℚ)/27)) (1000) (1000) _ (1000) (by norm_num)]
  rw [emaGo_cons (((2 : ℚ)/27)) (1000) (1000) _ (1000) (by norm_num)]
  rw [emaGo_cons (((2 : ℚ)/27)) (1000) (1000) _ (1000) (by norm_num)]
  rw [emaGo_cons (((2 : ℚ)/27)) (1000) (1000) _ (1000) (by norm_num)]
  rw [emaGo_cons (((2 : ℚ)/27)) (1000) (1000) _ (1000) (by norm_num)]
  rw [emaGo_cons (((2 : ℚ)/27)) (1000) (1000) _ (1000) (by norm_num)]
  rw [emaGo_cons (((2 : ℚ)/27)) (1000) (1000) _ (1000) (by norm_num)]
  rw [emaGo_cons (((2 : ℚ)/27)) (1000) (1000) _ (1000) (by norm_num)]
  rw [emaGo_cons (((2 : ℚ)/27)) (1000) (1000) _ (1000) (by norm_num)]
  rw [emaGo_cons (((2 : ℚ)/27)) (1000) (1000) _ (1000) (by norm_num)]
  rw [emaGo_cons (((2 : ℚ)/27)) (1000) (1000) _ (1000) (by norm_num)]
  rw [emaGo_cons (((2 : ℚ)/27)) (1000) (1000) _ (1000) (by norm_num)]
  rw [emaGo_cons (((2 : ℚ)/27)) (1000) (1000) _ (1000) (by norm_num)]
  rw [emaGo_cons (((2 : ℚ)/27)) (1000) (1000) _ (1000) (by norm_num)]
  rw [emaGo_cons (((2 : ℚ)/27)) (1000) (1000) _ (1000) (by norm_num)]
  rw [emaGo_cons (((2 : ℚ)/27)) (1000) (900) _ (((26800 : ℚ)/27)) (by norm_num)]
  rw [emaGo_cons (((2 : ℚ)/27)) (((26800 : ℚ)/27)) (1019) _ (((725026 : ℚ)/729)) (by norm_num)]
  rw [emaGo_cons (((2 : ℚ)/27)) (((725026 : ℚ)/729)) (1019) _ (((19611352 : ℚ)/19683)) (by norm_num)]
  rw [emaGo_cons (((2 : ℚ)/27)) (((19611352 : ℚ)/19683)) (1038) _ (((531145708 : ℚ)/531441)) (by norm_num)]
  rw [emaGo_cons (((2 : ℚ)/27)) (((531145708 : ℚ)/531441)) (1057) _ (((14402108974 : ℚ)/14348907)) (by norm_num)]
  rw [emaGo_cons (((2 : ℚ)/27)) (((14402108974 : ℚ)/14348907)) (1057) _ (((390386313748 : ℚ)/387420489)) (by norm_num)]
  rw [emaGo_cons (((2 : ℚ)/27)) (((390386313748 : ℚ)/387420489)) (1000) _ (((10534498821700 : ℚ)/10460353203)) (by norm_num)]
  rw [emaGo_cons (((2 : ℚ)/27)) (((10534498821700 : ℚ)/10460353203)) (1000) _ (((284283176948500 : ℚ)/282429536481)) (by norm_num)]
  rw [emaGo_cons (((2 : ℚ)/27)) (((284283176948500 : ℚ)/282429536481)) (1000) _ (((7671938496674500 : ℚ)/7625597484987)) (by norm_num)]
  rw [emaGo_cons (((2 : ℚ)/27)) (((7671938496674500 : ℚ)/7625597484987)) (1000) _ (((207049657386836500 : ℚ)/205891132094649)) (by norm_num)]
  rw [emaGo_cons (((2 : ℚ)/27)) (((207049657386836500 : ℚ)/205891132094649)) (1000) _ (((5588023698860210500 : ℚ)/5559060566555523)) (by norm_num)]
  rw [emaGo_cons (((2 : ℚ)/27)) (((5588023698860210500 : ℚ)/5559060566555523)) (1000) _ (((150818713604616308500 : ℚ)/150094635296999121)) (by norm_num)]
  rw [emaGo_cons (((2 : ℚ)/27)) (((150818713604616308500 : ℚ)/150094635296999121)) (1000) _ (((4070657110709405954500 : ℚ)/4052555153018976267)) (by norm_num)]
  rw [emaGo_cons (((2 : ℚ)/27)) (((4070657110709405954500 : ℚ)/4052555153018976267)) (1000) _ (((109871538073773101396500 : ℚ)/109418989131512359209)) (by norm_num)]
  rw [emaGo_cons (((2 : ℚ)/27)) (((109871538073773101396500 : ℚ)/109418989131512359209)) (1000) _ (((2965626430107352253330500 : ℚ)/2954312706550833698643)) (by norm_num)]
  rw [emaGo_cons (((2 : ℚ)/27)) (((2965626430107352253330500 : ℚ)/2954312706550833698643)) (1000) _ (((80049286165785473730548500 : ℚ)/79766443076872509863361)) (by norm_num)]
  rw [emaGo_cons (((2 : ℚ)/27)) (((80049286165785473730548500 : ℚ)/79766443076872509863361)) (1000) _ (((2160765040298381862990434500 : ℚ)/2153693963075557766310747)) (by norm_num)]
  rw [emaGo_cons (((2 : ℚ)/27)) (((2160765040298381862990434500 : ℚ)/2153693963075557766310747)) (1000) _ (((58326513933610662107382356500 : ℚ)/58149737003040059690390169)) (by norm_num)]
  rw [emaGo_cons (((2 : ℚ)/27)) (((58326513933610662107382356500 : ℚ)/58149737003040059690390169)) (1000) _ (((1574462322346346672065339250500 : ℚ)/1570042899082081611640534563)) (by norm_num)]
  rw [emaGo_cons (((2 : ℚ)/27)) (((1574462322346346672065339250500 : ℚ)/1570042899082081611640534563)) (1000) _ (((42501643856822830024914550388500 : ℚ)/42391158275216203514294433201)) (by norm_num)]
  rw [emaGo_cons (((2 : ℚ)/27)) (((42501643856822830024914550388500 : ℚ)/42391158275216203514294433201)) (1000) _ (((1147323412971003157651452626114500 : ℚ)/1144561273430837494885949696427)) (by norm_num)]
  rw [emaGo_nil]

set_option maxRecDepth 4000 in
theorem macd_zip_W1 :
    ((calculate_ema clsW1 12).zip (calculate_ema clsW1 26)).map
      (fun p => p.1 - p.2) =
    [0,
    0,
    0,
    0,
    0,
    0,
    0,
    0,
    0,
    0,
    0,
    0,
    0,
    0,
    0,
    0,
    0,
    0,
    0,
    ((-2800 : ℚ)/351),
    ((-572068 : ℚ)/123201),
    ((-85556296 : ℚ)/43243551),
    ((25008416720 : ℚ)/15178486401),
    ((31888511436572 : ℚ)/5327648726751),
    ((17420716689649784 : ℚ)/1870004703089601),
    ((4773119708416050152 : ℚ)/656371650784449951),
    ((1287345780166337793944 : ℚ)/230386449425341932801),
    ((340003695408602866911368 : ℚ)/80865643748295018413151),
    ((87221247113595227658426296 : ℚ)/28383840955651551463016001),
    ((21432759005340839874921359912 : ℚ)/9962728175433694563518616351),
    ((4912145223682223052471487643864 : ℚ)/3496917589577226791795034339201),
    ((986557266139818169710481048977608 : ℚ)/1227418073941606603920057053059551),
    ((139493801823040321420108867640099576 : ℚ)/430823743953503917975940025623902401),
    ((-8462295380214868907996467580421675928 : ℚ)/151219134127679875209554948993989742751),
    ((-18728186947462615485849811283982894000616 : ℚ)/53077916078815636198553787096890399705601),
    ((-10832109219746506610854223585437157799432952 : ℚ)/18630348543664288305692379271008530296665951),
    ((-4929833689578498152179674035955463307837836744 : ℚ)/6539252338826165195298025124123994134129748801),
    ((-2020787212481794300043053318779976520884868762968 : ℚ)/2295277570927983983549606818567521941079541829151),
    ((-781077449277111520487636127960544300201341178851496 : ℚ)/805642427395722378225911993317200201318919182032001),
    ((-290773687765558170931653949996221321046822255900144312 : ℚ)/282780492015898554757295109654337270662940632893232351)] := by
  rw [ema12_W1, ema26_W1]
  norm_num [List.zip_cons_cons]

theorem macd_line_W1 : (calculate_macd clsW1 12 26 9).1 =
    [0,
    0,
    0,
    0,
    0,
    0,
    0,
    0,
    0,
    0,
    0,
    0,
    0,
    0,
    0,
    0,
    0,
    0,
    0,
    ((-2800 : ℚ)/351),
    ((-572068 : ℚ)/123201),
    ((-85556296 : ℚ)/43243551),
    ((25008416720 : ℚ)/15178486401),
    ((31888511436572 : ℚ)/5327648726751),
    ((17420716689649784 : ℚ)/1870004703089601),
    ((4773119708416050152 : ℚ)/656371650784449951),
    ((1287345780166337793944 : ℚ)/230386449425341932801),
    ((340003695408602866911368 : ℚ)/80865643748295018413151),
    ((87221247113595227658426296 : ℚ)/28383840955651551463016001),
    ((21432759005340839874921359912 : ℚ)/9962728175433694563518616351),
    ((4912145223682223052471487643864 : ℚ)/3496917589577226791795034339201),
    ((986557266139818169710481048977608 : ℚ)/1227418073941606603920057053059551),
    ((139493801823040321420108867640099576 : ℚ)/430823743953503917975940025623902401),
    ((-8462295380214868907996467580421675928 : ℚ)/151219134127679875209554948993989742751),
    ((-18728186947462615485849811283982894000616 : ℚ)/53077916078815636198553787096890399705601),
    ((-10832109219746506610854223585437157799432952 : ℚ)/18630348543664288305692379271008530296665951),
    ((-4929833689578498152179674035955463307837836744 : ℚ)/6539252338826165195298025124123994134129748801),
    ((-2020787212481794300043053318779976520884868762968 : ℚ)/2295277570927983983549606818567521941079541829151),
    ((-781077449277111520487636127960544300201341178851496 : ℚ)/805642427395722378225911993317200201318919182032001),
    ((-290773687765558170931653949996221321046822255900144312 : ℚ)/282780492015898554757295109654337270662940632893232351)] := by
  unfold calculate_macd
  dsimp only
  exact macd_zip_W1

set_option maxRecDepth 4000 in
theorem signal_line_W1 : (calculate_macd clsW1 12 26 9).2.1 =
    [0,
    0,
    0,
    0,
    0,
    0,
    0,
    0,
    0,
    0,
    0,
    0,
    0,
    0,
    0,
    0,
    0,
    0,
    0,
    ((-560 : ℚ)/351),
    ((-1358308 : ℚ)/616005),
    ((-2334845912 : ℚ)/1081088775),
    ((-2652913242448 : ℚ)/1897310800125),
    ((261373737174508 : ℚ)/3329780454219375),
    ((11254916658024124232 : ℚ)/5843764697155003125),
    ((30717902076666027146728 : ℚ)/10255807043507030484375),
    ((63242712330738130144381112 : ℚ)/17998941361354838500078125),
    ((115355556816153433700161706248 : ℚ)/31588142089177741567637109375),
    ((196030001423627556719099807447192 : ℚ)/55437189366506936451203126953125),
    ((317086979431079417514321910733982568 : ℚ)/97292267338219673471861487802734375),
    ((493160287321257211686899834192620900472 : ℚ)/170747929178575526943116911093798828125),
    ((740568784909778434276301949676049509887688 : ℚ)/299662615708400049785170178969616943359375),
    ((1073814677974032125195634203858869697429188952 : ℚ)/525907890568242087372973664091677735595703125),
    ((1497305857460239750127213796753471126567534413608 : ℚ)/922968347947264863339568780480894425970458984375),
    ((1987909642212417481457356881066782555935339801080632 : ℚ)/1619809450647449835160943209743969717578155517578125),
    ((2460455398294087335773556319762966633111068887357832328 : ℚ)/2842765585886274460707455333100666854349662933349609375),
    ((2702246455380054541029516365800680600300380179520318463512 : ℚ)/4989053603230411678541584109591670329383658448028564453125),
    ((2252215732580743258311851714598943983777491856940325950895848 : ℚ)/8755789073669372495840480112333381428068320576290130615234375),
    ((182536878544616584567468103345866403358863235221701765917145592 : ℚ)/15366409824289748730200042597145084406259902611389179229736328125),
    ((-5289786180698219668791558191948983332082346628637103370798811963832 : ℚ)/26968049241628509021501074757989623132986129082988009548187255859375)] := by
  unfold calculate_macd
  dsimp only
  rw [macd_zip_W1]
  rw [calculate_ema_cons (0) _ 9 (((1 : ℚ)/5)) (by norm_num)]
  rw [emaGo_cons (((1 : ℚ)/5)) (0) (0) _ (0) (by norm_num)]
  rw [emaGo_cons (((1 : ℚ)/5)) (0) (0) _ (0) (by norm_num)]
  rw [emaGo_cons (((1 : ℚ)/5)) (0) (0) _ (0) (by norm_num)]
  rw [emaGo_cons (((1 : ℚ)/5)) (0) (0) _ (0) (by norm_num)]
  rw [emaGo_cons (((1 : ℚ)/5)) (0) (0) _ (0) (by norm_num)]
  rw [emaGo_cons (((1 : ℚ)/5)) (0) (0) _ (0) (by norm_num)]
  rw [emaGo_cons (((1 : ℚ)/5)) (0) (0) _ (0) (by norm_num)]
  rw [emaGo_cons (((1 : ℚ)/5)) (0) (0) _ (0) (by norm_num)]
  rw [emaGo_cons (((1 : ℚ)/5)) (0) (0) _ (0) (by norm_num)]
  rw [emaGo_cons (((1 : ℚ)/5)) (0) (0) _ (0) (by norm_num)]
  rw [emaGo_cons (((1 : ℚ)/5)) (0) (0) _ (0) (by norm_num)]
  rw [emaGo_cons (((1 : ℚ)/5)) (0) (0) _ (0) (by norm_num)]
  rw [emaGo_cons (((1 : ℚ)/5)) (0) (0) _ (0) (by norm_num)]
  rw [emaGo_cons (((1 : ℚ)/5)) (0) (0) _ (0) (by norm_num)]
  rw [emaGo_cons (((1 : ℚ)/5)) (0) (0) _ (0) (by norm_num)]
  rw [emaGo_cons (((1 : ℚ)/5)) (0) (0) _ (0) (by norm_num)]
  rw [emaGo_cons (((1 : ℚ)/5)) (0) (0) _ (0) (by norm_num)]
  rw [emaGo_cons (((1 : ℚ)/5)) (0) (0) _ (0) (by norm_num)]
  rw [emaGo_cons (((1 : ℚ)/5)) (0) (((-2800 : ℚ)/351)) _ (((-560 : ℚ)/351)) (by norm_num)]
  rw [emaGo_cons (((1 : ℚ)/5)) (((-560 : ℚ)/351)) (((-572068 : ℚ)/123201)) _ (((-1358308 : ℚ)/616005)) (by norm_num)]
  rw [emaGo_cons (((1 : ℚ)/5)) (((-1358308 : ℚ)/616005)) (((-85556296 : ℚ)/43243551)) _ (((-2334845912 : ℚ)/1081088775)) (by norm_num)]
  rw [emaGo_cons (((1 : ℚ)/5)) (((-2334845912 : ℚ)/1081088775)) (((25008416720 : ℚ)/15178486401)) _ (((-2652913242448 : ℚ)/1897310800125)) (by norm_num)]
  rw [emaGo_cons (((1 : ℚ)/5)) (((-2652913242448 : ℚ)/1897310800125)) (((31888511436572 : ℚ)/5327648726751)) _ (((261373737174508 : ℚ)/3329780454219375)) (by norm_num)]
  rw [emaGo_cons (((1 : ℚ)/5)) (((261373737174508 : ℚ)/3329780454219375)) (((17420716689649784 : ℚ)/1870004703089601)) _ (((11254916658024124232 : ℚ)/5843764697155003125)) (by norm_num)]
  rw [emaGo_cons (((1 : ℚ)/5)) (((11254916658024124232 : ℚ)/5843764697155003125)) (((4773119708416050152 : ℚ)/656371650784449951)) _ (((30717902076666027146728 : ℚ)/10255807043507030484375)) (by norm_num)]
  rw [emaGo_cons (((1 : ℚ)/5)) (((30717902076666027146728 : ℚ)/10255807043507030484375)) (((1287345780166337793944 : ℚ)/230386449425341932801)) _ (((63242712330738130144381112 : ℚ)/17998941361354838500078125)) (by norm_num)]
  rw [emaGo_cons (((1 : ℚ)/5)) (((63242712330738130144381112 : ℚ)/17998941361354838500078125)) (((340003695408602866911368 : ℚ)/80865643748295018413151)) _ (((115355556816153433700161706248 : ℚ)/31588142089177741567637109375)) (by norm_num)]
  rw [emaGo_cons (((1 : ℚ)/5)) (((115355556816153433700161706248 : ℚ)/31588142089177741567637109375)) (((87221247113595227658426296 : ℚ)/28383840955651551463016001)) _ (((196030001423627556719099807447192 : ℚ)/55437189366506936451203126953125)) (by norm_num)]
  rw [emaGo_cons (((1 : ℚ)/5)) (((196030001423627556719099807447192 : ℚ)/55437189366506936451203126953125)) (((21432759005340839874921359912 : ℚ)/9962728175433694563518616351)) _ (((317086979431079417514321910733982568 : ℚ)/97292267338219673471861487802734375)) (by norm_num)]
  rw [emaGo_cons (((1 : ℚ)/5)) (((317086979431079417514321910733982568 : ℚ)/97292267338219673471861487802734375)) (((4912145223682223052471487643864 : ℚ)/3496917589577226791795034339201)) _ (((493160287321257211686899834192620900472 : ℚ)/170747929178575526943116911093798828125)) (by norm_num)]
  rw [emaGo_cons (((1 : ℚ)/5)) (((493160287321257211686899834192620900472 : ℚ)/170747929178575526943116911093798828125)) (((986557266139818169710481048977608 : ℚ)/1227418073941606603920057053059551)) _ (((740568784909778434276301949676049509887688 : ℚ)/299662615708400049785170178969616943359375)) (by norm_num)]
  rw [emaGo_cons (((1 : ℚ)/5)) (((740568784909778434276301949676049509887688 : ℚ)/299662615708400049785170178969616943359375)) (((139493801823040321420108867640099576 : ℚ)/430823743953503917975940025623902401)) _ (((1073814677974032125195634203858869697429188952 : ℚ)/525907890568242087372973664091677735595703125)) (by norm_num)]
  rw [emaGo_cons (((1 : ℚ)/5)) (((1073814677974032125195634203858869697429188952 : ℚ)/525907890568242087372973664091677735595703125)) (((-8462295380214868907996467580421675928 : ℚ)/151219134127679875209554948993989742751)) _ (((1497305857460239750127213796753471126567534413608 : ℚ)/922968347947264863339568780480894425970458984375)) (by norm_num)]
  rw [emaGo_cons (((1 : ℚ)/5)) (((1497305857460239750127213796753471126567534413608 : ℚ)/922968347947264863339568780480894425970458984375)) (((-18728186947462615485849811283982894000616 : ℚ)/53077916078815636198553787096890399705601)) _ (((1987909642212417481457356881066782555935339801080632 : ℚ)/1619809450647449835160943209743969717578155517578125)) (by norm_num)]
  rw [emaGo_cons (((1 : ℚ)/5)) (((1987909642212417481457356881066782555935339801080632 : ℚ)/1619809450647449835160943209743969717578155517578125)) (((-10832109219746506610854223585437157799432952 : ℚ)/18630348543664288305692379271008530296665951)) _ (((2460455398294087335773556319762966633111068887357832328 : ℚ)/2842765585886274460707455333100666854349662933349609375)) (by norm_num)]
  rw [emaGo_cons (((1 : ℚ)/5)) (((2460455398294087335773556319762966633111068887357832328 : ℚ)/2842765585886274460707455333100666854349662933349609375)) (((-4929833689578498152179674035955463307837836744 : ℚ)/6539252338826165195298025124123994134129748801)) _ (((2702246455380054541029516365800680600300380179520318463512 : ℚ)/4989053603230411678541584109591670329383658448028564453125)) (by norm_num)]
  rw [emaGo_cons (((1 : ℚ)/5)) (((2702246455380054541029516365800680600300380179520318463512 : ℚ)/4989053603230411678541584109591670329383658448028564453125)) (((-2020787212481794300043053318779976520884868762968 : ℚ)/2295277570927983983549606818567521941079541829151)) _ (((2252215732580743258311851714598943983777491856940325950895848 : ℚ)/8755789073669372495840480112333381428068320576290130615234375)) (by norm_num)]
  rw [emaGo_cons (((1 : ℚ)/5)) (((2252215732580743258311851714598943983777491856940325950895848 : ℚ)/8755789073669372495840480112333381428068320576290130615234375)) (((-781077449277111520487636127960544300201341178851496 : ℚ)/805642427395722378225911993317200201318919182032001)) _ (((182536878544616584567468103345866403358863235221701765917145592 : ℚ)/15366409824289748730200042597145084406259902611389179229736328125)) (by norm_num)]
  rw [emaGo_cons (((1 : ℚ)/5)) (((182536878544616584567468103345866403358863235221701765917145592 : ℚ)/15366409824289748730200042597145084406259902611389179229736328125)) (((-290773687765558170931653949996221321046822255900144312 : ℚ)/282780492015898554757295109654337270662940632893232351)) _ (((-5289786180698219668791558191948983332082346628637103370798811963832 : ℚ)/26968049241628509021501074757989623132986129082988009548187255859375)) (by norm_num)]
  rw [emaGo_nil]

set_option maxRecDepth 4000 in
theorem bs_macd_above_W1 : bs_macd_above W1 = false := by
  unfold bs_macd_above
  dsimp only
  rw [closesOf_W1, macd_line_W1, signal_line_W1]
  norm_num [List.getLastD, decide_eq_false_iff_not]

set_option maxRecDepth 4000 in
theorem bs_macd_cross_W1 : bs_macd_cross W1 = true := by
  unfold bs_macd_cross
  dsimp only
  rw [closesOf_W1, bs_macd_above_W1]
  simp only [Bool.false_eq_true, if_false]
  rw [macd_line_W1]
  norm_num [List.getLastD]

/-!  ### C2 counterexample: the Bollinger Squeeze short signal on `W1`
has `take_profit = entry_price = stop_loss`.  -/

theorem bs_gen_W1 :
    bs_generate_signal S0 W1 = some ⟨.short, 1000, 1000, 1000, 3 / 5⟩ := by
  unfold bs_generate_signal
  have hlen : ¬ (W1.length < max S0.bb_period S0.atr_period + 20) := by
    rw [W1_length, S0_bb_period, S0_atr_period]
    decide
  rw [if_neg hlen, if_pos bs_is_squeeze_W1]
  dsimp only
  rw [closesOf_W1, clsW1_getLastD]
  have hlong : ¬ (((1000 : ℚ) : ℝ) > bs_current_upper S0 W1 ∧
      bs_macd_cross W1 = true ∧ bs_macd_above W1 = true) := by
    rw [bs_macd_above_W1]
    rintro ⟨-, -, h3⟩
    exact absurd h3 (by simp)
  rw [if_neg hlong]
  have hshort : (((1000 : ℚ) : ℝ) < bs_current_lower S0 W1 ∧
      bs_macd_cross W1 = true ∧ bs_macd_above W1 = false) := by
    refine ⟨?_, bs_macd_cross_W1, bs_macd_above_W1⟩
    rw [bs_current_lower_W1]
    exact_mod_cast (by norm_num : (1000 : ℚ) < 5038 / 5)
  rw [if_pos hshort]
  have hvol : ¬ (meanQ (lastN 10 (volumesOf W1)) < (volumesOf W1).getLastD 0) := by
    rw [volumesOf_W1]
    norm_num [meanQ, lastN, List.replicate, List.getLastD]
  rw [if_neg hvol]
  unfold bs_calculate_stop_loss bs_calculate_take_profit
  rw [bs_current_atr_W1]
  norm_num

theorem C2_bollinger_counterexample :
    bs_generate_signal S0 W1 = some ⟨.short, 1000, 1000, 1000, 3 / 5⟩ ∧
    ¬ sidesOK ⟨.short, 1000, 1000, 1000, 3 / 5⟩ := by
  refine ⟨bs_gen_W1, ?_⟩
  intro h
  unfold sidesOK at h
  exact absurd (h.2 rfl).1 (lt_irrefl 1000)

/-!  ### C9 witness window `W2`: squeeze without breakout  -/

/-- Closes of the C9 witness window: flat at 1000, one spike to 1080 and a
drift back to 1000, then 15 flat candles, so both the band width and the ATR
are squeezed while the final close sits strictly inside both bands. -/
def clsW2 : List ℚ :=
  (List.replicate 19 1000) ++ [1080, 1007, 995, 999, 999, 1000] ++
    (List.replicate 15 1000)

/-- The 40 point-candles of the C9 witness. -/
def W2 : List Candle := clsW2.map pointCandle

theorem clsW2_length : clsW2.length = 40 := by norm_num [clsW2]

theorem closesOf_W2 : closesOf W2 = clsW2 := by
  unfold closesOf W2
  rw [List.map_map]
  have h : ((fun x : Candle => x.close) ∘ pointCandle) = id := rfl
  rw [h, List.map_id]

theorem highsOf_W2 : highsOf W2 = clsW2 := by
  unfold highsOf W2
  rw [List.map_map]
  have h : ((fun x : Candle => x.high) ∘ pointCandle) = id := rfl
  rw [h, List.map_id]

theorem lowsOf_W2 : lowsOf W2 = clsW2 := by
  unfold lowsOf W2
  rw [List.map_map]
  have h : ((fun x : Candle => x.low) ∘ pointCandle) = id := rfl
  rw [h, List.map_id]

theorem W2_length : W2.length = 40 := by
  simp [W2, clsW2_length]

/-- True ranges of `W2`. -/
theorem trList_W2 : trList clsW2 clsW2 clsW2 =
    (List.replicate 19 0) ++ [80, 73, 12, 4, 0, 1, 0] ++
      (List.replicate 14 0) := by
  norm_num [trList, clsW2, List.range_succ, List.replicate]

theorem bs_current_atr_W2 : bs_current_atr S0 W2 = 0 := by
  unfold bs_current_atr calculate_atr
  rw [S0_atr_period, highsOf_W2, lowsOf_W2, closesOf_W2, trList_W2]
  rw [lastO_rollMeanQ 14 _ (by norm_num) (by norm_num)]
  norm_num [lastN, List.replicate]

theorem bs_avg_atr_W2 : bs_avg_atr S0 W2 = 737 / 105 := by
  unfold bs_avg_atr calculate_atr
  rw [S0_atr_period, highsOf_W2, lowsOf_W2, closesOf_W2, trList_W2]
  have hlen : (rollMeanQ 14 ((List.replicate 19 (0:ℚ)) ++
      [80, 73, 12, 4, 0, 1, 0] ++ (List.replicate 14 0))).length = 40 := by
    simp [rollMeanQ, rwindows, List.map_map]
  rw [lastO_rollMeanO 15 _ (by rw [hlen]; norm_num) (by rw [hlen]; norm_num)]
  have hroll : lastN 15 (rollMeanQ 14 ((List.replicate 19 (0:ℚ)) ++
      [80, 73, 12, 4, 0, 1, 0] ++ (List.replicate 14 0))) =
      [some (85/7), some (85/7), some (85/7), some (85/7), some (85/7),
       some (85/7), some (85/7), some (85/7), some (45/7), some (17/14),
       some (5/14), some (1/14), some (1/14), some 0, some 0] := by
    norm_num [rollMeanQ, rwindows, lastN, List.range_succ, List.replicate]
  rw [hroll]
  norm_num [seqOpt]

theorem sqrt_rat_324 : Real.sqrt ((324 : ℚ) : ℝ) = ((18 : ℚ) : ℝ) := by
  rw [show ((324 : ℚ) : ℝ) = 18 ^ 2 by norm_num]
  rw [Real.sqrt_sq (by norm_num : (0 : ℝ) ≤ 18)]
  norm_num

theorem sqrt_rat_4 : Real.sqrt ((4 : ℚ) : ℝ) = ((2 : ℚ) : ℝ) := by
  rw [show ((4 : ℚ) : ℝ) = 2 ^ 2 by norm_num]
  rw [Real.sqrt_sq (by norm_num : (0 : ℝ) ≤ 2)]
  norm_num

theorem bs_width_at_W2 (i : ℕ) (hi : i < 40) (h20 : 20 ≤ i + 1) (v s : ℚ)
    (hv : sampleVarQ ((clsW2.drop (i + 1 - 20)).take 20) = some v)
    (hs : Real.sqrt ((v : ℚ) : ℝ) = ((s : ℚ) : ℝ))
    (hc : clsW2.getD i 0 = 1000) :
    bs_width_at S0 W2 i = some ((s / 5000 : ℚ) : ℝ) := by
  unfold bs_width_at
  rw [closesOf_W2, S0_bb_period, S0_bb_std]
  have hwin : (rwindows 20 clsW2).getD i none =
      some ((clsW2.drop (i + 1 - 20)).take 20) :=
    rwindows_getD 20 clsW2 i h20 (by rw [clsW2_length]; exact hi)
  rw [upper_getD_eval clsW2 20 (1 / 10) i _ v
      (by rw [clsW2_length]; exact hi) hwin hv,
    lower_getD_eval clsW2 20 (1 / 10) i _ v
      (by rw [clsW2_length]; exact hi) hwin hv, hs, hc]
  simp only [Option.some_bind', Option.map_some']
  congr 1
  push_cast
  ring

theorem bs_widths_length_W2 : (bs_widths S0 W2).length = 40 := by
  unfold bs_widths
  rw [closesOf_W2, clsW2_length, List.length_map, List.length_range]

theorem bs_width_at_W2_25 : bs_width_at S0 W2 25 = some (((18 / 5000 : ℚ) : ℝ)) := by
  have hv : sampleVarQ ((clsW2.drop (25 + 1 - 20)).take 20) = some 324 := by
    norm_num [sampleVarQ, smaQ, clsW2, List.replicate]
  exact bs_width_at_W2 25 (by norm_num) (by norm_num) 324 18 hv
    sqrt_rat_324 (by norm_num [clsW2, List.replicate])
theorem bs_width_at_W2_26 : bs_width_at S0 W2 26 = some (((18 / 5000 : ℚ) : ℝ)) := by
  have hv : sampleVarQ ((clsW2.drop (26 + 1 - 20)).take 20) = some 324 := by
    norm_num [sampleVarQ, smaQ, clsW2, List.replicate]
  exact bs_width_at_W2 26 (by norm_num) (by norm_num) 324 18 hv
    sqrt_rat_324 (by norm_num [clsW2, List.replicate])
theorem bs_width_at_W2_27 : bs_width_at S0 W2 27 = some (((18 / 5000 : ℚ) : ℝ)) := by
  have hv : sampleVarQ ((clsW2.drop (27 + 1 - 20)).take 20) = some 324 := by
    norm_num [sampleVarQ, smaQ, clsW2, List.replicate]
  exact bs_width_at_W2 27 (by norm_num) (by norm_num) 324 18 hv
    sqrt_rat_324 (by norm_num [clsW2, List.replicate])
theorem bs_width_at_W2_28 : bs_width_at S0 W2 28 = some (((18 / 5000 : ℚ) : ℝ)) := by
  have hv : sampleVarQ ((clsW2.drop (28 + 1 - 20)).take 20) = some 324 := by
    norm_num [sampleVarQ, smaQ, clsW2, List.replicate]
  exact bs_width_at_W2 28 (by norm_num) (by norm_num) 324 18 hv
    sqrt_rat_324 (by norm_num [clsW2, List.replicate])
theorem bs_width_at_W2_29 : bs_width_at S0 W2 29 = some (((18 / 5000 : ℚ) : ℝ)) := by
  have hv : sampleVarQ ((clsW2.drop (29 + 1 - 20)).take 20) = some 324 := by
    norm_num [sampleVarQ, smaQ, clsW2, List.replicate]
  exact bs_width_at_W2 29 (by norm_num) (by norm_num) 324 18 hv
    sqrt_rat_324 (by norm_num [clsW2, List.replicate])
theorem bs_width_at_W2_30 : bs_width_at S0 W2 30 = some (((18 / 5000 : ℚ) : ℝ)) := by
  have hv : sampleVarQ ((clsW2.drop (30 + 1 - 20)).take 20) = some 324 := by
    norm_num [sampleVarQ, smaQ, clsW2, List.replicate]
  exact bs_width_at_W2 30 (by norm_num) (by norm_num) 324 18 hv
    sqrt_rat_324 (by norm_num [clsW2, List.replicate])
theorem bs_width_at_W2_31 : bs_width_at S0 W2 31 = some (((18 / 5000 : ℚ) : ℝ)) := by
  have hv : sampleVarQ ((clsW2.drop (31 + 1 - 20)).take 20) = some 324 := by
    norm_num [sampleVarQ, smaQ, clsW2, List.replicate]
  exact bs_width_at_W2 31 (by norm_num) (by norm_num) 324 18 hv
    sqrt_rat_324 (by norm_num [clsW2, List.replicate])
theorem bs_width_at_W2_32 : bs_width_at S0 W2 32 = some (((18 / 5000 : ℚ) : ℝ)) := by
  have hv : sampleVarQ ((clsW2.drop (32 + 1 - 20)).take 20) = some 324 := by
    norm_num [sampleVarQ, smaQ, clsW2, List.replicate]
  exact bs_width_at_W2 32 (by norm_num) (by norm_num) 324 18 hv
    sqrt_rat_324 (by norm_num [clsW2, List.replicate])
theorem bs_width_at_W2_33 : bs_width_at S0 W2 33 = some (((18 / 5000 : ℚ) : ℝ)) := by
  have hv : sampleVarQ ((clsW2.drop (33 + 1 - 20)).take 20) = some 324 := by
    norm_num [sampleVarQ, smaQ, clsW2, List.replicate]
  exact bs_width_at_W2 33 (by norm_num) (by norm_num) 324 18 hv
    sqrt_rat_324 (by norm_num [clsW2, List.replicate])
theorem bs_width_at_W2_34 : bs_width_at S0 W2 34 = some (((18 / 5000 : ℚ) : ℝ)) := by
  have hv : sampleVarQ ((clsW2.drop (34 + 1 - 20)).take 20) = some 324 := by
    norm_num [sampleVarQ, smaQ, clsW2, List.replicate]
  exact bs_width_at_W2 34 (by norm_num) (by norm_num) 324 18 hv
    sqrt_rat_324 (by norm_num [clsW2, List.replicate])
theorem bs_width_at_W2_35 : bs_width_at S0 W2 35 = some (((18 / 5000 : ℚ) : ℝ)) := by
  have hv : sampleVarQ ((clsW2.drop (35 + 1 - 20)).take 20) = some 324 := by
    norm_num [sampleVarQ, smaQ, clsW2, List.replicate]
  exact bs_width_at_W2 35 (by norm_num) (by norm_num) 324 18 hv
    sqrt_rat_324 (by norm_num [clsW2, List.replicate])
theorem bs_width_at_W2_36 : bs_width_at S0 W2 36 = some (((18 / 5000 : ℚ) : ℝ)) := by
  have hv : sampleVarQ ((clsW2.drop (36 + 1 - 20)).take 20) = some 324 := by
    norm_num [sampleVarQ, smaQ, clsW2, List.replicate]
  exact bs_width_at_W2 36 (by norm_num) (by norm_num) 324 18 hv
    sqrt_rat_324 (by norm_num [clsW2, List.replicate])
theorem bs_width_at_W2_37 : bs_width_at S0 W2 37 = some (((18 / 5000 : ℚ) : ℝ)) := by
  have hv : sampleVarQ ((clsW2.drop (37 + 1 - 20)).take 20) = some 324 := by
    norm_num [sampleVarQ, smaQ, clsW2, List.replicate]
  exact bs_width_at_W2 37 (by norm_num) (by norm_num) 324 18 hv
    sqrt_rat_324 (by norm_num [clsW2, List.replicate])
theorem bs_width_at_W2_38 : bs_width_at S0 W2 38 = some (((18 / 5000 : ℚ) : ℝ)) := by
  have hv : sampleVarQ ((clsW2.drop (38 + 1 - 20)).take 20) = some 324 := by
    norm_num [sampleVarQ, smaQ, clsW2, List.replicate]
  exact bs_width_at_W2 38 (by norm_num) (by norm_num) 324 18 hv
    sqrt_rat_324 (by norm_num [clsW2, List.replicate])
theorem bs_width_at_W2_39 : bs_width_at S0 W2 39 = some (((2 / 5000 : ℚ) : ℝ)) := by
  have hv : sampleVarQ ((clsW2.drop (39 + 1 - 20)).take 20) = some 4 := by
    norm_num [sampleVarQ, smaQ, clsW2, List.replicate]
  exact bs_width_at_W2 39 (by norm_num) (by norm_num) 4 2 hv
    sqrt_rat_4 (by norm_num [clsW2, List.replicate])

theorem bs_widths_W2_lastN :
    lastN 15 (bs_widths S0 W2) =
      (List.replicate 14 (some (((18 / 5000 : ℚ) : ℝ)))) ++
        [some (((2 / 5000 : ℚ) : ℝ))] := by
  unfold bs_widths
  rw [closesOf_W2, clsW2_length]
  unfold lastN
  rw [List.length_map, List.length_range]
  rw [show (40 : ℕ) - 15 = 25 by norm_num]
  rw [← List.map_drop]
  rw [show (List.range 40).drop 25 =
    [25, 26, 27, 28, 29, 30, 31, 32, 33, 34, 35, 36, 37, 38, 39] by
    norm_num [List.range_succ]]
  simp only [List.map_cons, List.map_nil]
  rw [bs_width_at_W2_25, bs_width_at_W2_26, bs_width_at_W2_27,
    bs_width_at_W2_28, bs_width_at_W2_29, bs_width_at_W2_30,
    bs_width_at_W2_31, bs_width_at_W2_32, bs_width_at_W2_33,
    bs_width_at_W2_34, bs_width_at_W2_35, bs_width_at_W2_36,
    bs_width_at_W2_37, bs_width_at_W2_38, bs_width_at_W2_39]
  norm_num [List.replicate]

theorem bs_avg_bb_width_W2 :
    bs_avg_bb_width S0 W2 = ((127 / 37500 : ℚ) : ℝ) := by
  unfold bs_avg_bb_width
  rw [lastO_rollMeanO 15 _ (by rw [bs_widths_length_W2]; norm_num)
    (by rw [bs_widths_length_W2]; norm_num)]
  rw [bs_widths_W2_lastN]
  norm_num [seqOpt, List.replicate]

theorem winW2_39 : (rwindows 20 clsW2).getD 39 none =
    some ((clsW2.drop (39 + 1 - 20)).take 20) :=
  rwindows_getD 20 clsW2 39 (by norm_num) (by rw [clsW2_length]; norm_num)

theorem varW2_39 : sampleVarQ ((clsW2.drop (39 + 1 - 20)).take 20) =
    some 4 := by
  norm_num [sampleVarQ, smaQ, clsW2, List.replicate]

theorem smaW2_39 : smaQ ((clsW2.drop (39 + 1 - 20)).take 20) = 1000 := by
  norm_num [smaQ, clsW2, List.replicate]

theorem bs_current_upper_W2 :
    bs_current_upper S0 W2 = ((5001 / 5 : ℚ) : ℝ) := by
  unfold bs_current_upper
  rw [closesOf_W2, S0_bb_period, S0_bb_std, lastO_eq_getD,
    calculate_bollinger_upper_length, clsW2_length]
  rw [show (40 : ℕ) - 1 = 39 by norm_num]
  rw [upper_getD_eval clsW2 20 (1 / 10) 39 _ 4
    (by rw [clsW2_length]; norm_num) winW2_39 varW2_39]
  rw [smaW2_39, sqrt_rat_4]
  push_cast
  norm_num

theorem bs_current_lower_W2 :
    bs_current_lower S0 W2 = ((4999 / 5 : ℚ) : ℝ) := by
  unfold bs_current_lower
  rw [closesOf_W2, S0_bb_period, S0_bb_std, lastO_eq_getD,
    calculate_bollinger_lower_length, clsW2_length]
  rw [show (40 : ℕ) - 1 = 39 by norm_num]
  rw [lower_getD_eval clsW2 20 (1 / 10) 39 _ 4
    (by rw [clsW2_length]; norm_num) winW2_39 varW2_39]
  rw [smaW2_39, sqrt_rat_4]
  push_cast
  norm_num

theorem clsW2_getLastD : clsW2.getLastD 0 = 1000 := by
  norm_num [clsW2, List.replicate, List.getLastD]

theorem bs_bb_width_W2 : bs_bb_width S0 W2 = ((2 / 5000 : ℚ) : ℝ) := by
  unfold bs_bb_width
  rw [bs_current_upper_W2, bs_current_lower_W2, closesOf_W2, clsW2_getLastD]
  push_cast
  norm_num

theorem bs_is_squeeze_W2 : bs_is_squeeze S0 W2 := by
  unfold bs_is_squeeze
  constructor
  · rw [bs_bb_width_W2, bs_avg_bb_width_W2]
    push_cast
    norm_num
  · rw [bs_current_atr_W2, bs_avg_atr_W2]
    norm_num

/-- C9: on any sufficiently long window, the Bollinger Squeeze strategy
returns a signal only when the squeeze condition (band width below 70% of its
15-period rolling average and ATR below 80% of its 15-period rolling average)
holds; and when the squeeze holds but the current close lies between the lower
and the upper band, `generate_signal` returns `None`. -/
theorem C9_squeeze_gate (S : BollingerSqueezeStrategy) (df : List Candle)
    (hlen : max S.bb_period S.atr_period + 20 ≤ df.length) :
    (∀ sig, bs_generate_signal S df = some sig → bs_is_squeeze S df) ∧
    (bs_is_squeeze S df →
      bs_current_lower S df ≤ (((closesOf df).getLastD 0 : ℚ) : ℝ) →
      (((closesOf df).getLastD 0 : ℚ) : ℝ) ≤ bs_current_upper S df →
      bs_generate_signal S df = none) := by
  have hguard : ¬ (df.length < max S.bb_period S.atr_period + 20) := by omega
  constructor
  · intro sig h
    unfold bs_generate_signal at h
    rw [if_neg hguard] at h
    by_cases hsq : bs_is_squeeze S df
    · exact hsq
    · rw [if_neg hsq] at h
      exact absurd h (by simp)
  · intro hsq hlo hhi
    unfold bs_generate_signal
    rw [if_neg hguard, if_pos hsq]
    dsimp only
    have hlong : ¬ ((((closesOf df).getLastD 0 : ℚ) : ℝ) >
        bs_current_upper S df ∧
        bs_macd_cross df = true ∧ bs_macd_above df = true) :=
      fun hc => absurd hc.1 (not_lt.mpr hhi)
    have hshort : ¬ ((((closesOf df).getLastD 0 : ℚ) : ℝ) <
        bs_current_lower S df ∧
        bs_macd_cross df = true ∧ bs_macd_above df = false) :=
      fun hc => absurd hc.1 (not_lt.mpr hlo)
    rw [if_neg hlong, if_neg hshort]

theorem C9_squeeze_gate_witness :
    (max S0.bb_period S0.atr_period + 20 ≤ W2.length ∧ bs_is_squeeze S0 W2) ∧
    bs_generate_signal S0 W2 = none := by
  have hlen : max S0.bb_period S0.atr_period + 20 ≤ W2.length := by
    rw [S0_bb_period, S0_atr_period, W2_length]
    decide
  refine ⟨⟨hlen, bs_is_squeeze_W2⟩, ?_⟩
  exact (C9_squeeze_gate S0 W2 hlen).2 bs_is_squeeze_W2
    (by rw [bs_current_lower_W2, closesOf_W2, clsW2_getLastD]
        exact_mod_cast (by norm_num : (4999 / 5 : ℚ) ≤ 1000))
    (by rw [bs_current_upper_W2, closesOf_W2, clsW2_getLastD]
        exact_mod_cast (by norm_num : (1000 : ℚ) ≤ 5001 / 5))
